import Mathlib

/-!
# lesson-2/challenge/executor.js

A shallow embedding of the transfer script `src/lesson-2/challenge/executor.js`.

The script talks to three collaborators that are not part of the repository: the RPC
connection (`connection.getBalance`, `requestAirdrop`, `getRecentBlockhash`,
`sendTransaction`, `confirmTransaction`), the key material routines
(`Keypair.generate`, `base58.decode`, `Keypair.fromSecretKey`, `transaction.sign`) and the
console.  They are embedded as follows.

* Every call to a collaborator is recorded, in program order, in a trace of `Event`s.
* What a collaborator answers is read from a `World`.  An operation whose answer may change
  from call to call (the RPC operations and `Keypair.generate`) is a script: it is given the
  number of earlier calls of the same operation, counted in the trace, and the arguments of
  the call.  The decoding and signing routines are functions of their arguments.
* `SystemProgram.transfer` writes `lamports` into an 8 byte field of the instruction data and
  throws when the amount does not fit.  Every amount below `2 ^ 63` fits whether the SDK
  writes the field signed or unsigned; for the other amounts the world says whether the SDK
  accepts them.  `new PublicKey(key)` of a `PublicKey` object is a copy.
* An `async` function of the script becomes a function from the trace so far to a `Res`:
  how the function completed (it returned a value, or it threw) and the trace afterwards.
  `await` is sequencing; the script is single threaded.
* `undefined` results are `none`.
-/

namespace Executor

/-! ## Values -/

/-- A JavaScript error value as far as the script inspects it: `error.code`, `error.message`. -/
structure JsError where
  name : String
  message : String
  code : Option Int
  deriving DecidableEq, Repr

/-- How a call completes: it returns a value or it throws. -/
inductive Completion (α : Type) where
  | returned (value : α)
  | threw (error : JsError)
  deriving DecidableEq, Repr

/-- A `PublicKey` of the SDK, identified by its base58 text. -/
structure PublicKey where
  base58 : String
  deriving DecidableEq, Repr

/-- The script's `address.toString()`. -/
def PublicKey.toString (k : PublicKey) : String := k.base58

/-- A `Keypair` of the SDK. -/
structure Keypair where
  publicKey : PublicKey
  secretKey : List Nat
  deriving DecidableEq, Repr

/-- The argument object of `SystemProgram.transfer`. -/
structure TransferInstruction where
  fromPubkey : PublicKey
  toPubkey : PublicKey
  lamports : Nat
  deriving DecidableEq, Repr

/-- A `Transaction` of the SDK: its instructions, its block reference and its signatures. -/
structure Transaction where
  instructions : List TransferInstruction
  recentBlockhash : Option String
  signatures : List (PublicKey × String)
  deriving DecidableEq, Repr

/-- What `connection.confirmTransaction` resolves to. -/
structure Confirmation where
  err : Option String
  deriving DecidableEq, Repr

/-- The constant `LAMPORTS_PER_SOL` of the SDK. -/
def LAMPORTS_PER_SOL : Nat := 1000000000

/-- One argument of a `console.log` or `console.error` call. -/
inductive Arg where
  | str (s : String)
  | num (n : Nat)
  | err (e : JsError)
  | conf (c : Confirmation)
  deriving DecidableEq, Repr

/-! ## Events and the world -/

/-- A call of the script to one of its collaborators. -/
inductive Event where
  | generate
  | getBalance (address : PublicKey)
  | requestAirdrop (address : PublicKey) (lamports : Nat)
  | setTimeout (ms : Nat)
  | getRecentBlockhash
  | getEnv (name : String)
  | sign (tx : Transaction) (signer : Keypair)
  | sendTransaction (tx : Transaction) (signers : List Keypair)
  | confirmTransaction (signature : String)
  | log (args : List Arg)
  | error (args : List Arg)
  deriving DecidableEq, Repr

/-- The answers of the collaborators. The `Nat` argument of a scripted operation is the
number of earlier calls of that operation.  `acceptsLamports n` says whether
`SystemProgram.transfer` accepts an amount `n` of `2 ^ 63` or more, and `lamportsError n` is
the error it throws when it does not. -/
structure World where
  generate : Nat → Completion Keypair
  getBalance : Nat → PublicKey → Completion Nat
  requestAirdrop : Nat → PublicKey → Nat → Completion String
  getRecentBlockhash : Nat → Completion String
  acceptsLamports : Nat → Bool
  lamportsError : Nat → JsError
  secretKeyEnv : Option String
  base58decode : String → Completion (List Nat)
  fromSecretKey : List Nat → Completion Keypair
  sign : Transaction → Keypair → Completion String
  sendTransaction : Nat → Transaction → List Keypair → Completion String
  confirmTransaction : Nat → String → Completion Confirmation

/-- Number of `Keypair.generate` calls in a trace. -/
def generateCalls (tr : List Event) : Nat :=
  tr.countP fun e => match e with | .generate => true | _ => false

/-- Number of `getBalance` calls in a trace. -/
def balanceCalls (tr : List Event) : Nat :=
  tr.countP fun e => match e with | .getBalance _ => true | _ => false

/-- Number of `requestAirdrop` calls in a trace. -/
def airdropCalls (tr : List Event) : Nat :=
  tr.countP fun e => match e with | .requestAirdrop _ _ => true | _ => false

/-- Number of `getRecentBlockhash` calls in a trace. -/
def blockhashCalls (tr : List Event) : Nat :=
  tr.countP fun e => match e with | .getRecentBlockhash => true | _ => false

/-- Number of `sendTransaction` calls in a trace. -/
def sendCalls (tr : List Event) : Nat :=
  tr.countP fun e => match e with | .sendTransaction _ _ => true | _ => false

/-- Number of `confirmTransaction` calls in a trace. -/
def confirmCalls (tr : List Event) : Nat :=
  tr.countP fun e => match e with | .confirmTransaction _ => true | _ => false

/-- The delay of a `setTimeout` event, zero for any other event. -/
def Event.waited : Event → Nat
  | .setTimeout ms => ms
  | _ => 0

/-- Sum of the delays waited in a trace. -/
def totalWait (tr : List Event) : Nat := (tr.map Event.waited).sum

/-! ## Computations -/

/-- Result of running a piece of the script: how it completed and the trace afterwards. -/
structure Res (α : Type) where
  out : Completion α
  trace : List Event
  deriving DecidableEq, Repr

/-- A piece of the script: from the trace so far to its result. -/
def M (α : Type) : Type := List Event → Res α

/-- Return a value, no collaborator called. -/
def M.pure {α : Type} (a : α) : M α := fun tr => ⟨.returned a, tr⟩

/-- Sequencing: a throw of the first part skips the second. -/
def M.bind {α β : Type} (x : M α) (f : α → M β) : M β := fun tr =>
  match x tr with
  | ⟨.returned a, tr1⟩ => f a tr1
  | ⟨.threw e, tr1⟩ => ⟨.threw e, tr1⟩

instance : Monad M where
  pure := M.pure
  bind := M.bind

/-- The statement `throw error`. -/
def throwJs {α : Type} (e : JsError) : M α := fun tr => ⟨.threw e, tr⟩

/-- The statement `try body catch (error) handler`. -/
def tryJs {α : Type} (body : M α) (handler : JsError → M α) : M α := fun tr =>
  match body tr with
  | ⟨.returned a, tr1⟩ => ⟨.returned a, tr1⟩
  | ⟨.threw e, tr1⟩ => handler e tr1

/-- Record an event. -/
def emit (e : Event) : M Unit := fun tr => ⟨.returned (), tr ++ [e]⟩

/-- Record a call and complete the way the collaborator answers it. -/
def call {α : Type} (e : Event) (answer : List Event → Completion α) : M α := fun tr =>
  ⟨answer tr, tr ++ [e]⟩

/-- The call `console.log(...args)`. -/
def consoleLog (args : List Arg) : M Unit := emit (.log args)

/-- The call `console.error(...args)`. -/
def consoleError (args : List Arg) : M Unit := emit (.error args)

/-! ## The script -/

/-- Lines 31 to 51, the `for` loop of `airdrop`: `remaining` is `3 - attempt`, so the loop
condition `attempt < 3` is `remaining ≠ 0`; leaving the loop ends the function without a
`return`, that is with `undefined`. -/
def airdropLoop (w : World) (address : PublicKey) (amount : Nat) :
    (remaining : Nat) → (delay : Nat) → M (Option String)
  | 0, _ => pure none
  | remaining + 1, delay =>
    tryJs
      (do
        let txHash ← call (.requestAirdrop address amount)
          (fun tr => w.requestAirdrop (airdropCalls tr) address amount)
        consoleLog [.str "Airdropped successfully!"]
        pure (some txHash))
      (fun error =>
        if error.code = some 429 then do
          consoleError [.str "Airdrop rate limit reached. Retrying in ", .num delay, .str " ms..."]
          emit (.setTimeout delay)
          airdropLoop w address amount remaining (delay * 2)
        else do
          consoleError [.str "Airdrop failed: ", .err error]
          throwJs error)

/-- Lines 31 to 51, `airdrop(address, amount)`. -/
def airdrop (w : World) (address : PublicKey) (amount : Nat) : M (Option String) := do
  consoleLog [.str "Airdropping ", .num amount, .str " Lamports to ", .str address.toString,
    .str " ..."]
  airdropLoop w address amount 3 500

/-- Lines 11 to 17, `createAccount()`: a fault of `Keypair.generate` is not caught. -/
def createAccount (w : World) : M PublicKey := do
  consoleLog [.str "Generating new account..."]
  let userKeypair ← call .generate (fun tr => w.generate (generateCalls tr))
  let userPublicKey := userKeypair.publicKey
  consoleLog [.str "Public key: ", .str userPublicKey.toString]
  pure userPublicKey

/-- Lines 20 to 28, `checkBalance(address)`: the `catch` block has no `return`, so a failed
query makes the function return `undefined`. -/
def checkBalance (w : World) (address : PublicKey) : M (Option Nat) :=
  tryJs
    (do
      let solBalance ← call (.getBalance address)
        (fun tr => w.getBalance (balanceCalls tr) address)
      consoleLog [.str "SOL Balance: ", .num solBalance, .str " Lamports"]
      pure (some solBalance))
    (fun error => do
      consoleError [.str "Error fetching balance for ", .str address.toString, .str ": ",
        .err error]
      pure none)

/-- Whether `SystemProgram.transfer` accepts the amount `lamports`: every amount below
`2 ^ 63` fits the 8 byte field, the world decides for the others. -/
def lamportsAccepted (w : World) (lamports : Nat) : Bool :=
  decide (lamports < 2 ^ 63) || w.acceptsLamports lamports

/-- The call `SystemProgram.transfer(params)` of lines 58 to 62, with `PublicKey` objects as
keys: it throws when the amount does not fit the instruction data, and it calls no
collaborator that is recorded in the trace. -/
def systemTransfer (w : World) (fromPubkey toPubkey : PublicKey) (lamports : Nat) :
    M TransferInstruction :=
  if lamportsAccepted w lamports then
    pure { fromPubkey := fromPubkey, toPubkey := toPubkey, lamports := lamports }
  else
    throwJs (w.lamportsError lamports)

/-- Lines 54 to 70, `createTransaction(senderKey, receiverKey, amount)`, called with
`PublicKey` objects as it is at lines 102, 145, 188 and 225.  The construction of lines 57 to
63 is inside the `try` and comes before the block reference is asked for. -/
def createTransaction (w : World) (senderKey receiverKey : PublicKey) (amount : Nat) :
    M (Option Transaction) := do
  consoleLog [.str "Creating a transaction..."]
  tryJs
    (do
      let instruction ← systemTransfer w senderKey receiverKey amount
      let transaction : Transaction :=
        { instructions := [instruction],
          recentBlockhash := none,
          signatures := [] }
      let blockhash ← call .getRecentBlockhash
        (fun tr => w.getRecentBlockhash (blockhashCalls tr))
      pure (some { transaction with recentBlockhash := some blockhash }))
    (fun error => do
      consoleError [.str "Transaction failed due to: ", .err error]
      pure none)

/-- A routine of the key material that touches no state: it completes the way the world says. -/
def ofCompletion {α : Type} (c : Completion α) : M α := fun tr => ⟨c, tr⟩

/-- Lines 73 to 85, `getSecretKey()`: `process.env.SOLANA_SECRET_KEY` is a string or
`undefined`, and `!secretKeyBase58` holds for `undefined` and for the empty string. -/
def getSecretKey (w : World) : M (Option Keypair) :=
  tryJs
    (do
      let secretKeyBase58 ← call (.getEnv "SOLANA_SECRET_KEY")
        (fun _ => .returned w.secretKeyEnv)
      match secretKeyBase58 with
      | none => throwJs ⟨"Error", "SOLANA_SECRET_KEY is not defined or not a string", none⟩
      | some s =>
        if s = "" then
          throwJs ⟨"Error", "SOLANA_SECRET_KEY is not defined or not a string", none⟩
        else do
          let secretKeyArray ← ofCompletion (w.base58decode s)
          let privateKey ← ofCompletion (w.fromSecretKey secretKeyArray)
          pure (some privateKey))
    (fun error => do
      consoleError [.str "Secret key failed due to: ", .err error]
      pure none)

/-- The call `transaction.sign(signer)`: it throws, or it stores the signature in the
transaction. -/
def signTransaction (w : World) (transaction : Transaction) (signer : Keypair) :
    M Transaction := do
  let signature ← call (.sign transaction signer) (fun _ => w.sign transaction signer)
  pure { transaction with signatures := [(signer.publicKey, signature)] }

/-- The call `connection.sendTransaction(transaction, signers)`. -/
def sendTransaction (w : World) (transaction : Transaction) (signers : List Keypair) :
    M String :=
  call (.sendTransaction transaction signers)
    (fun tr => w.sendTransaction (sendCalls tr) transaction signers)

/-- The call `connection.confirmTransaction(signature)`. -/
def confirmTransaction (w : World) (signature : String) : M Confirmation :=
  call (.confirmTransaction signature)
    (fun tr => w.confirmTransaction (confirmCalls tr) signature)

/-- The comparison `solBalance < requireSol` of the script, whose left side is `undefined`
when the balance query failed: `undefined < n` is `false`. -/
def jsLt (a : Option Nat) (b : Nat) : Bool :=
  match a with
  | some x => decide (x < b)
  | none => false

/-- Reading a name that is bound nowhere: a `ReferenceError`. -/
def unbound {α : Type} (name : String) : M α :=
  throwJs ⟨"ReferenceError", name ++ " is not defined", none⟩

/-- Reading a `const` of the enclosing function above its declaration: a `ReferenceError`. -/
def uninitialized {α : Type} (name : String) : M α :=
  throwJs ⟨"ReferenceError", "Cannot access \x27" ++ name ++ "\x27 before initialization", none⟩

/-- Lines 87 to 89, `task1()`. -/
def task1 (w : World) : M Unit := do
  let _newAccount ← createAccount w
  pure ()

/-- Lines 91 to 129, `task2()`. -/
def task2 (w : World) : M Unit := do
  let senderPublicKey : PublicKey := ⟨"7GnVC9WogD4DKRhFn9QXMiGJtPSP9Skz7reTpfgqXrL8"⟩
  let receiverPublicKey : PublicKey := ⟨"63EEC9FfGyksm7PkVC6z8uAmqozbQcTzbkWJNsgqjkFs"⟩
  let solBalance ← checkBalance w senderPublicKey
  let requireSol := LAMPORTS_PER_SOL / 1000000 * 5
  if jsLt solBalance requireSol then do
    consoleLog [.str "Your balance is too low."]
    consoleLog [.str "Processing without sufficient balance..."]
  let transaction ← createTransaction w senderPublicKey receiverPublicKey requireSol
  match transaction with
  | none => consoleError [.str "Failed to create a transaction."]
  | some transaction => do
    let senderPrivateKey ← getSecretKey w
    match senderPrivateKey with
    | none => consoleError [.str "Failed to get secret key."]
    | some senderPrivateKey =>
      tryJs
        (do
          let transaction ← signTransaction w transaction senderPrivateKey
          let signature ← sendTransaction w transaction [senderPrivateKey]
          consoleLog [.str "Transaction signature: ", .str signature]
          let confirmation ← confirmTransaction w signature
          consoleLog [.str "Transaction confirmed: ", .conf confirmation]
          let explorerUrl := "https://explorer.solana.com/tx/" ++ signature ++ "?cluster=devnet"
          consoleLog [.str "View transaction on Solana Explorer: ", .str explorerUrl])
        (fun error => consoleError [.str "Transaction failed: ", .str error.message])

/-- Lines 131 to 172, `task3()`. -/
def task3 (w : World) : M Unit := do
  let newAccount ← createAccount w
  let senderPublicKey : PublicKey := ⟨"7GnVC9WogD4DKRhFn9QXMiGJtPSP9Skz7reTpfgqXrL8"⟩
  let receiverPublicKey := newAccount
  let solBalance ← checkBalance w senderPublicKey
  let requireSol := LAMPORTS_PER_SOL / 1000000 * 5
  let _ ← airdrop w receiverPublicKey (requireSol * 10)
  if jsLt solBalance requireSol then do
    consoleLog [.str "Your balance is too low."]
    consoleLog [.str "Processing without sufficient balance..."]
  let transaction ← createTransaction w senderPublicKey receiverPublicKey requireSol
  match transaction with
  | none => consoleError [.str "Failed to create a transaction."]
  | some transaction => do
    let senderPrivateKey ← getSecretKey w
    match senderPrivateKey with
    | none => consoleError [.str "Failed to get secret key."]
    | some senderPrivateKey =>
      tryJs
        (do
          let transaction ← signTransaction w transaction senderPrivateKey
          let signature ← sendTransaction w transaction [senderPrivateKey]
          consoleLog [.str "Transaction signature: ", .str signature]
          let confirmation ← confirmTransaction w signature
          consoleLog [.str "Transaction confirmed: ", .conf confirmation]
          let explorerUrl := "https://explorer.solana.com/tx/" ++ signature ++ "?cluster=devnet"
          consoleLog [.str "View transaction on Solana Explorer: ", .str explorerUrl])
        (fun error => consoleError [.str "Transaction failed: ", .str error.message])

/-- Lines 174 to 245, `task4()`.  Line 184 reads `solBalance` and `requireSol`, which are
bound neither in `task4` nor at module level (the function binds `solBalance1`,
`requireSol1`, `solBalance2`, `requireSol2`).  Line 203 reads `transaction`, a `const` that
`task4` declares only at line 225 (line 188 binds `transaction1`). -/
def task4 (w : World) : M Unit := do
  let newAccount ← createAccount w
  let senderPublicKey : PublicKey := ⟨"7GnVC9WogD4DKRhFn9QXMiGJtPSP9Skz7reTpfgqXrL8"⟩
  let receiverPublicKey1 := newAccount
  let _solBalance1 ← checkBalance w senderPublicKey
  let requireSol1 := LAMPORTS_PER_SOL / 1000000 * 5
  let _ ← airdrop w receiverPublicKey1 (requireSol1 * 10)
  let solBalance : Option Nat ← unbound "solBalance"
  let requireSol : Nat ← unbound "requireSol"
  if jsLt solBalance requireSol then do
    consoleLog [.str "Your balance is too low."]
    consoleLog [.str "Processing without sufficient balance..."]
  let transaction1 ← createTransaction w senderPublicKey receiverPublicKey1 requireSol1
  match transaction1 with
  | none => consoleError [.str "Failed to create a transaction."]
  | some _transaction1 => do
    let senderPrivateKey ← getSecretKey w
    match senderPrivateKey with
    | none => consoleError [.str "Failed to get secret key."]
    | some senderPrivateKey => do
      tryJs
        (do
          let transaction : Transaction ← uninitialized "transaction"
          let transaction ← signTransaction w transaction senderPrivateKey
          let signature ← sendTransaction w transaction [senderPrivateKey]
          consoleLog [.str "Transaction signature: ", .str signature]
          let confirmation ← confirmTransaction w signature
          consoleLog [.str "Transaction confirmed: ", .conf confirmation]
          let explorerUrl := "https://explorer.solana.com/tx/" ++ signature ++ "?cluster=devnet"
          consoleLog [.str "View transaction on Solana Explorer: ", .str explorerUrl])
        (fun error => consoleError [.str "Transaction failed: ", .str error.message])
      let receiverPublicKey2 : PublicKey := ⟨"63EEC9FfGyksm7PkVC6z8uAmqozbQcTzbkWJNsgqjkFs"⟩
      let solBalance2 ← checkBalance w senderPublicKey
      let requireSol2 := LAMPORTS_PER_SOL / 1000000 * 5
      if jsLt solBalance2 requireSol2 then do
        consoleLog [.str "Your balance is too low."]
        consoleLog [.str "Processing without sufficient balance..."]
      let transaction ← createTransaction w senderPublicKey receiverPublicKey2 requireSol2
      match transaction with
      | none => consoleError [.str "Failed to create a transaction."]
      | some transaction =>
        tryJs
          (do
            let transaction ← signTransaction w transaction senderPrivateKey
            let signature ← sendTransaction w transaction [senderPrivateKey]
            consoleLog [.str "Transaction signature: ", .str signature]
            let confirmation ← confirmTransaction w signature
            consoleLog [.str "Transaction confirmed: ", .conf confirmation]
            let explorerUrl :=
              "https://explorer.solana.com/tx/" ++ signature ++ "?cluster=devnet"
            consoleLog [.str "View transaction on Solana Explorer: ", .str explorerUrl])
          (fun error => consoleError [.str "Transaction failed: ", .str error.message])

/-- Lines 247 to 276, the body of `main()` with the four functions it calls as parameters. -/
def runTasks (task1 task2 task3 task4 : M Unit) : M Unit := do
  tryJs task1 (fun _ => consoleLog [.str "Task 1 incomplete."])
  tryJs task2 (fun _ => consoleLog [.str "Task 2 is incomplete."])
  tryJs task3 (fun _ => consoleLog [.str "Task 3 is incomplete."])
  tryJs task4 (fun _ => consoleLog [.str "Task 4 is incomplete."])

/-- Lines 247 to 276, `main()`. -/
def main (w : World) : M Unit :=
  runTasks (task1 w) (task2 w) (task3 w) (task4 w)

/-! ## The steps of a transfer -/

/-- The steps of one transfer, in the order of the script: fetch the block reference, read
the credential, sign, submit, confirm. -/
inductive Step where
  | build
  | credential
  | sign
  | send
  | confirm
  deriving DecidableEq, Repr

/-- The step that an event performs, if it is a step of a transfer. -/
def Event.step : Event → Option Step
  | .getRecentBlockhash => some .build
  | .getEnv _ => some .credential
  | .sign _ _ => some .sign
  | .sendTransaction _ _ => some .send
  | .confirmTransaction _ => some .confirm
  | _ => none

/-- The steps performed in a trace, in order and with repetitions. -/
def steps (tr : List Event) : List Step := tr.filterMap Event.step

/-- The discipline of one transfer, for the events `new` that a task has appended to the
trace `tr0`:
* the steps performed are an initial segment of build, credential, sign, send, confirm, so
  they come in this order, each at most once, and none without the ones before it;
* the credential is read only if the gateway supplied the block reference;
* signing happens only if moreover `getSecretKey` returned a key;
* `sendTransaction` is called only if moreover the `sign` call that was made succeeded;
* `confirmTransaction` is called only if moreover the `sendTransaction` call that was made
  succeeded. -/
def TransferDiscipline (w : World) (tr0 new : List Event) : Prop :=
  steps new <+: [.build, .credential, .sign, .send, .confirm] ∧
  (Step.credential ∈ steps new →
    ∃ h, w.getRecentBlockhash (blockhashCalls tr0) = .returned h) ∧
  (Step.sign ∈ steps new →
    (∃ h, w.getRecentBlockhash (blockhashCalls tr0) = .returned h) ∧
    (∃ key, ∀ tr, (getSecretKey w tr).out = .returned (some key))) ∧
  (Step.send ∈ steps new →
    (∃ h, w.getRecentBlockhash (blockhashCalls tr0) = .returned h) ∧
    (∃ key, ∀ tr, (getSecretKey w tr).out = .returned (some key)) ∧
    (∃ tx key sig, Event.sign tx key ∈ new ∧ w.sign tx key = .returned sig)) ∧
  (Step.confirm ∈ steps new →
    (∃ h, w.getRecentBlockhash (blockhashCalls tr0) = .returned h) ∧
    (∃ key, ∀ tr, (getSecretKey w tr).out = .returned (some key)) ∧
    (∃ tx key sig, Event.sign tx key ∈ new ∧ w.sign tx key = .returned sig) ∧
    (∃ tx keys s, Event.sendTransaction tx keys ∈ new ∧
      w.sendTransaction (sendCalls tr0) tx keys = .returned s))

/-! ## Blocks of the script that occur in several tasks

The text of lines 116 to 128 of `task2` occurs again at lines 159 to 171 (`task3`) and at
lines 232 to 244 (`task4`); the text of lines 98 to 128 occurs again at lines 141 to 171.
The definitions below name these blocks so that they can be reasoned about once;
`task2_eq` and `task3_eq` show that the tasks above are built from them. -/

/-- The `try` statement of lines 116 to 128. -/
def signAndSubmit (w : World) (transaction : Transaction) (senderPrivateKey : Keypair) :
    M Unit :=
  tryJs
    (do
      let transaction ← signTransaction w transaction senderPrivateKey
      let signature ← sendTransaction w transaction [senderPrivateKey]
      consoleLog [.str "Transaction signature: ", .str signature]
      let confirmation ← confirmTransaction w signature
      consoleLog [.str "Transaction confirmed: ", .conf confirmation]
      let explorerUrl := "https://explorer.solana.com/tx/" ++ signature ++ "?cluster=devnet"
      consoleLog [.str "View transaction on Solana Explorer: ", .str explorerUrl])
    (fun error => consoleError [.str "Transaction failed: ", .str error.message])

/-- Lines 102 to 128: build the transaction, read the credential, sign and submit. -/
def submitTransfer (w : World) (senderPublicKey receiverPublicKey : PublicKey)
    (requireSol : Nat) : M Unit := do
  let transaction ← createTransaction w senderPublicKey receiverPublicKey requireSol
  match transaction with
  | none => consoleError [.str "Failed to create a transaction."]
  | some transaction => do
    let senderPrivateKey ← getSecretKey w
    match senderPrivateKey with
    | none => consoleError [.str "Failed to get secret key."]
    | some senderPrivateKey => signAndSubmit w transaction senderPrivateKey

/-- Lines 98 to 128, with `requireSol` of line 96. -/
def transferFrom (w : World) (senderPublicKey receiverPublicKey : PublicKey)
    (solBalance : Option Nat) : M Unit := do
  let requireSol := LAMPORTS_PER_SOL / 1000000 * 5
  if jsLt solBalance requireSol then do
    consoleLog [.str "Your balance is too low."]
    consoleLog [.str "Processing without sufficient balance..."]
  submitTransfer w senderPublicKey receiverPublicKey requireSol

/-- A task as `main` sees it: it appends the events `events` to the trace and then returns
(`failure = none`) or throws (`failure = some e`). -/
def scriptedTask (events : List Event) (failure : Option JsError) : M Unit := fun tr =>
  ⟨match failure with
    | none => .returned ()
    | some e => .threw e,
   tr ++ events⟩

/-- The line that `main` logs for a task: nothing when the task returned, `message` when it
threw. -/
def incompleteLog (message : String) (failure : Option JsError) : List Event :=
  match failure with
  | none => []
  | some _ => [.log [.str message]]

/-- Whether an event is an operation of the RPC gateway. -/
def Event.isGateway : Event → Bool
  | .getBalance _ => true
  | .requestAirdrop _ _ => true
  | .getRecentBlockhash => true
  | .sendTransaction _ _ => true
  | .confirmTransaction _ => true
  | _ => false

/-! ## Worlds used as concrete inputs -/

/-- The rate-limit error of the gateway. -/
def rateLimited : JsError := ⟨"Error", "429 Too Many Requests", some 429⟩

/-- A gateway error that is not the rate-limit signal. -/
def serverError : JsError := ⟨"Error", "500 Internal Server Error", some 500⟩

/-- A key pair used in the concrete worlds. -/
def sampleKeypair : Keypair := ⟨⟨"4Nd1mYQCZnGpT3Zq7cFfK1yJm8ePqz6T9sW2vRk5HuXb"⟩, [1, 2, 3]⟩

/-- A world in which every collaborator succeeds; its SDK writes `lamports` as an unsigned
64 bit integer, so it accepts exactly the amounts below `2 ^ 64`. -/
def calmWorld : World where
  generate := fun _ => .returned sampleKeypair
  getBalance := fun _ _ => .returned 1000000
  requestAirdrop := fun _ _ _ => .returned "airdropTx"
  getRecentBlockhash := fun _ => .returned "blockhash1"
  acceptsLamports := fun n => decide (n < 2 ^ 64)
  lamportsError := fun _ => ⟨"RangeError", "lamports out of range", none⟩
  secretKeyEnv := some "encodedSecret"
  base58decode := fun _ => .returned [1, 2, 3]
  fromSecretKey := fun bytes => .returned ⟨⟨"7GnVC9WogD4DKRhFn9QXMiGJtPSP9Skz7reTpfgqXrL8"⟩, bytes⟩
  sign := fun _ _ => .returned "sig"
  sendTransaction := fun _ _ _ => .returned "txSignature"
  confirmTransaction := fun _ _ => .returned ⟨none⟩

/-- The calm world with a faucet that is rate limited on its first `k` calls. -/
def throttledWorld (k : Nat) : World :=
  { calmWorld with
    requestAirdrop := fun i _ _ => if i < k then .threw rateLimited else .returned "airdropTx" }

/-- A world whose gateway fails every query with an error that is not the rate limit. -/
def offlineWorld : World :=
  { calmWorld with
    getBalance := fun _ _ => .threw serverError
    requestAirdrop := fun _ _ _ => .threw serverError
    getRecentBlockhash := fun _ => .threw serverError
    sendTransaction := fun _ _ _ => .threw serverError
    confirmTransaction := fun _ _ => .threw serverError }

/-- The calm world with a faucet that is rate limited on every call. -/
def jammedWorld : World :=
  { calmWorld with requestAirdrop := fun _ _ _ => .threw rateLimited }

/-- The calm world with a faucet rate limited on its first `k` calls and broken afterwards. -/
def brokenFaucetWorld (k : Nat) : World :=
  { calmWorld with
    requestAirdrop := fun i _ _ => if i < k then .threw rateLimited else .threw serverError }

end Executor

namespace Executor

/-! ## Running the computations -/

@[simp] theorem pure_run {α : Type} (a : α) (tr : List Event) :
    (pure a : M α) tr = ⟨.returned a, tr⟩ := rfl

@[simp] theorem bind_run {α β : Type} (x : M α) (f : α → M β) (tr : List Event) :
    (x >>= f) tr =
      match x tr with
      | ⟨.returned a, tr1⟩ => f a tr1
      | ⟨.threw e, tr1⟩ => ⟨.threw e, tr1⟩ := rfl

@[simp] theorem throwJs_run {α : Type} (e : JsError) (tr : List Event) :
    (throwJs e : M α) tr = ⟨.threw e, tr⟩ := rfl

@[simp] theorem tryJs_run {α : Type} (body : M α) (handler : JsError → M α)
    (tr : List Event) :
    tryJs body handler tr =
      match body tr with
      | ⟨.returned a, tr1⟩ => ⟨.returned a, tr1⟩
      | ⟨.threw e, tr1⟩ => handler e tr1 := rfl

@[simp] theorem emit_run (e : Event) (tr : List Event) :
    emit e tr = ⟨.returned (), tr ++ [e]⟩ := rfl

@[simp] theorem call_run {α : Type} (e : Event) (answer : List Event → Completion α)
    (tr : List Event) : call e answer tr = ⟨answer tr, tr ++ [e]⟩ := rfl

@[simp] theorem consoleLog_run (args : List Arg) (tr : List Event) :
    consoleLog args tr = ⟨.returned (), tr ++ [.log args]⟩ := rfl

@[simp] theorem consoleError_run (args : List Arg) (tr : List Event) :
    consoleError args tr = ⟨.returned (), tr ++ [.error args]⟩ := rfl

@[simp] theorem ofCompletion_run {α : Type} (c : Completion α) (tr : List Event) :
    ofCompletion c tr = ⟨c, tr⟩ := rfl

/-! ## The airdrop loop, one attempt at a time -/

/-- An attempt whose request succeeds ends the loop with the transaction id. -/
theorem airdropLoop_returned (w : World) (address : PublicKey) (amount n delay : Nat)
    (tr : List Event) (t : String)
    (h : w.requestAirdrop (airdropCalls tr) address amount = .returned t) :
    airdropLoop w address amount (n + 1) delay tr =
      ⟨.returned (some t),
        tr ++ [.requestAirdrop address amount, .log [.str "Airdropped successfully!"]]⟩ := by
  simp [airdropLoop, h]

/-- An attempt that is rate limited logs, waits `delay` and goes on with the next attempt. -/
theorem airdropLoop_rateLimited (w : World) (address : PublicKey) (amount n delay : Nat)
    (tr : List Event) (e : JsError)
    (h : w.requestAirdrop (airdropCalls tr) address amount = .threw e)
    (hcode : e.code = some 429) :
    airdropLoop w address amount (n + 1) delay tr =
      airdropLoop w address amount n (delay * 2)
        (tr ++ [.requestAirdrop address amount,
          .error [.str "Airdrop rate limit reached. Retrying in ", .num delay, .str " ms..."],
          .setTimeout delay]) := by
  simp [airdropLoop, h, hcode]

/-- An attempt that fails with another error logs it and throws it again. -/
theorem airdropLoop_threw (w : World) (address : PublicKey) (amount n delay : Nat)
    (tr : List Event) (e : JsError)
    (h : w.requestAirdrop (airdropCalls tr) address amount = .threw e)
    (hcode : e.code ≠ some 429) :
    airdropLoop w address amount (n + 1) delay tr =
      ⟨.threw e,
        tr ++ [.requestAirdrop address amount, .error [.str "Airdrop failed: ", .err e]]⟩ := by
  simp [airdropLoop, h, hcode]

theorem airdropCalls_append (tr new : List Event) :
    airdropCalls (tr ++ new) = airdropCalls tr + airdropCalls new := by
  simp [airdropCalls]

theorem totalWait_append (tr new : List Event) :
    totalWait (tr ++ new) = totalWait tr + totalWait new := by
  simp [totalWait]

/-- The function `airdrop` is its first log line followed by the loop. -/
theorem airdrop_run (w : World) (address : PublicKey) (amount : Nat) (tr : List Event) :
    airdrop w address amount tr =
      airdropLoop w address amount 3 500
        (tr ++ [.log [.str "Airdropping ", .num amount, .str " Lamports to ",
          .str address.toString, .str " ..."]]) := by
  simp [airdrop]

/-- C1: if `requestAirdrop` answers its first `k` calls (`k ≤ 2`) with the rate-limit error
(code 429) and call `k + 1` with the transaction id `t`, then `airdrop(address, amount)`
returns `t`, issues exactly `k + 1` requests and waits `500 * (2 ^ k - 1)` in total. -/
theorem airdrop_retries_until_success (w : World) (address : PublicKey) (amount : Nat)
    (tr0 : List Event) (k : Nat) (t : String) (hk : k ≤ 2)
    (hlimited : ∀ i, i < k → ∃ e,
      w.requestAirdrop (airdropCalls tr0 + i) address amount = .threw e ∧ e.code = some 429)
    (hok : w.requestAirdrop (airdropCalls tr0 + k) address amount = .returned t) :
    (airdrop w address amount tr0).out = .returned (some t) ∧
    tr0 <+: (airdrop w address amount tr0).trace ∧
    airdropCalls (airdrop w address amount tr0).trace = airdropCalls tr0 + (k + 1) ∧
    totalWait (airdrop w address amount tr0).trace = totalWait tr0 + 500 * (2 ^ k - 1) := by
  rw [airdrop_run]
  interval_cases k
  · rw [airdropLoop_returned w address amount 2 500 _ t
      (by simpa [airdropCalls_append, airdropCalls] using hok)]
    simp [airdropCalls_append, totalWait_append, airdropCalls, totalWait, Event.waited]
  · obtain ⟨e0, h0, c0⟩ := hlimited 0 (by omega)
    rw [airdropLoop_rateLimited w address amount 2 500 _ e0
      (by simpa [airdropCalls_append, airdropCalls] using h0) c0]
    rw [airdropLoop_returned w address amount 1 _ _ t
      (by simpa [airdropCalls_append, airdropCalls] using hok)]
    simp [airdropCalls_append, totalWait_append, airdropCalls, totalWait, Event.waited]
  · obtain ⟨e0, h0, c0⟩ := hlimited 0 (by omega)
    obtain ⟨e1, h1, c1⟩ := hlimited 1 (by omega)
    rw [airdropLoop_rateLimited w address amount 2 500 _ e0
      (by simpa [airdropCalls_append, airdropCalls] using h0) c0]
    rw [airdropLoop_rateLimited w address amount 1 _ _ e1
      (by simpa [airdropCalls_append, airdropCalls] using h1) c1]
    rw [airdropLoop_returned w address amount 0 _ _ t
      (by simpa [airdropCalls_append, airdropCalls] using hok)]
    simp [airdropCalls_append, totalWait_append, airdropCalls, totalWait, Event.waited]

/-- C1 at a concrete input: two rate-limited answers, then success. -/
theorem airdrop_retries_until_success_witness :
    (airdrop (throttledWorld 2) ⟨"receiver"⟩ 50000 []).out = .returned (some "airdropTx") ∧
    [] <+: (airdrop (throttledWorld 2) ⟨"receiver"⟩ 50000 []).trace ∧
    airdropCalls (airdrop (throttledWorld 2) ⟨"receiver"⟩ 50000 []).trace
      = airdropCalls [] + (2 + 1) ∧
    totalWait (airdrop (throttledWorld 2) ⟨"receiver"⟩ 50000 []).trace
      = totalWait [] + 500 * (2 ^ 2 - 1) :=
  airdrop_retries_until_success (throttledWorld 2) ⟨"receiver"⟩ 50000 [] 2 "airdropTx"
    (by decide)
    (fun i hi => ⟨rateLimited, by simp [throttledWorld, airdropCalls, hi], rfl⟩)
    (by simp [throttledWorld, airdropCalls])

/-- Three rate-limited attempts in a row: the loop is left after the third wait. -/
theorem airdropLoop_exhausted (w : World) (address : PublicKey) (amount : Nat)
    (tr : List Event)
    (hlimited : ∀ i, i < 3 → ∃ e,
      w.requestAirdrop (airdropCalls tr + i) address amount = .threw e ∧ e.code = some 429) :
    airdropLoop w address amount 3 500 tr =
      ⟨.returned none,
        tr ++ [.requestAirdrop address amount,
          .error [.str "Airdrop rate limit reached. Retrying in ", .num 500, .str " ms..."],
          .setTimeout 500,
          .requestAirdrop address amount,
          .error [.str "Airdrop rate limit reached. Retrying in ", .num 1000, .str " ms..."],
          .setTimeout 1000,
          .requestAirdrop address amount,
          .error [.str "Airdrop rate limit reached. Retrying in ", .num 2000, .str " ms..."],
          .setTimeout 2000]⟩ := by
  obtain ⟨e0, h0, c0⟩ := hlimited 0 (by omega)
  obtain ⟨e1, h1, c1⟩ := hlimited 1 (by omega)
  obtain ⟨e2, h2, c2⟩ := hlimited 2 (by omega)
  rw [airdropLoop_rateLimited w address amount 2 500 _ e0 (by simpa using h0) c0]
  rw [airdropLoop_rateLimited w address amount 1 _ _ e1
    (by simpa [airdropCalls_append, airdropCalls] using h1) c1]
  rw [airdropLoop_rateLimited w address amount 0 _ _ e2
    (by simpa [airdropCalls_append, airdropCalls] using h2) c2]
  simp [airdropLoop]

/-- The loop with `n` attempts left issues at most `n` requests. -/
theorem airdropLoop_calls_le (w : World) (address : PublicKey) (amount : Nat) :
    ∀ (n delay : Nat) (tr : List Event),
      airdropCalls (airdropLoop w address amount n delay tr).trace ≤ airdropCalls tr + n := by
  intro n
  induction n with
  | zero => intro delay tr; simp [airdropLoop]
  | succ n ih =>
    intro delay tr
    cases h : w.requestAirdrop (airdropCalls tr) address amount with
    | returned t =>
      rw [airdropLoop_returned w address amount n delay tr t h]
      simp [airdropCalls_append, airdropCalls]
    | threw e =>
      by_cases hcode : e.code = some 429
      · rw [airdropLoop_rateLimited w address amount n delay tr e h hcode]
        refine le_trans (ih _ _) ?_
        simp [airdropCalls_append, airdropCalls]
        omega
      · rw [airdropLoop_threw w address amount n delay tr e h hcode]
        simp [airdropCalls_append, airdropCalls]

/-- C2, the claim as stated fails: with a faucet that is rate limited on every call,
`airdrop` completes normally with `undefined` and throws nothing. -/
theorem airdrop_exhaustion_is_silent :
    (∀ i, jammedWorld.requestAirdrop i ⟨"receiver"⟩ 50000 = .threw rateLimited) ∧
    rateLimited.code = some 429 ∧
    (airdrop jammedWorld ⟨"receiver"⟩ 50000 []).out = .returned none ∧
    ¬ ∃ e, (airdrop jammedWorld ⟨"receiver"⟩ 50000 []).out = .threw e := by
  refine ⟨fun _ => rfl, rfl, ?_, ?_⟩
  · rfl
  · rintro ⟨e, he⟩
    have h : (airdrop jammedWorld ⟨"receiver"⟩ 50000 []).out = .returned none := rfl
    rw [h] at he
    cases he

/-- C2 amended: if `requestAirdrop` answers three calls in a row with the rate-limit error,
`airdrop(address, amount)` issues exactly 3 requests, waits 500, 1000 and 2000 (3500 in
total) and then completes normally with `undefined`; it throws nothing. -/
theorem airdrop_exhaustion_returns_undefined (w : World) (address : PublicKey) (amount : Nat)
    (tr0 : List Event)
    (hlimited : ∀ i, i < 3 → ∃ e,
      w.requestAirdrop (airdropCalls tr0 + i) address amount = .threw e ∧ e.code = some 429) :
    (airdrop w address amount tr0).out = .returned none ∧
    (∀ e, (airdrop w address amount tr0).out ≠ .threw e) ∧
    airdropCalls (airdrop w address amount tr0).trace = airdropCalls tr0 + 3 ∧
    (((airdrop w address amount tr0).trace.drop tr0.length).map Event.waited).filter (· ≠ 0)
      = [500, 1000, 2000] ∧
    totalWait (airdrop w address amount tr0).trace = totalWait tr0 + 3500 := by
  rw [airdrop_run, airdropLoop_exhausted w address amount _
    (by simpa [airdropCalls_append, airdropCalls] using hlimited)]
  simp [airdropCalls_append, totalWait_append, airdropCalls, totalWait, Event.waited]

/-- C2 amended at a concrete input: the faucet that is always rate limited. -/
theorem airdrop_exhaustion_returns_undefined_witness :
    (airdrop jammedWorld ⟨"receiver"⟩ 50000 []).out = .returned none ∧
    (∀ e, (airdrop jammedWorld ⟨"receiver"⟩ 50000 []).out ≠ .threw e) ∧
    airdropCalls (airdrop jammedWorld ⟨"receiver"⟩ 50000 []).trace = airdropCalls [] + 3 ∧
    (((airdrop jammedWorld ⟨"receiver"⟩ 50000 []).trace.drop ([] : List Event).length).map
      Event.waited).filter (· ≠ 0) = [500, 1000, 2000] ∧
    totalWait (airdrop jammedWorld ⟨"receiver"⟩ 50000 []).trace = totalWait [] + 3500 :=
  airdrop_exhaustion_returns_undefined jammedWorld ⟨"receiver"⟩ 50000 []
    (fun _ _ => ⟨rateLimited, rfl, rfl⟩)

/-- C3: if call `j` of `requestAirdrop` (`1 ≤ j ≤ 3`) is the first to fail with an error
whose code is not 429, the earlier calls having been rate limited, then `airdrop` throws
that same error, has issued exactly `j` requests, and after request `j` does nothing but log
the error: no further request and no wait. -/
theorem airdrop_rethrows_other_errors (w : World) (address : PublicKey) (amount : Nat)
    (tr0 : List Event) (j : Nat) (e : JsError) (hj1 : 1 ≤ j) (hj3 : j ≤ 3)
    (hlimited : ∀ i, i + 1 < j → ∃ e0,
      w.requestAirdrop (airdropCalls tr0 + i) address amount = .threw e0 ∧ e0.code = some 429)
    (hfail : w.requestAirdrop (airdropCalls tr0 + (j - 1)) address amount = .threw e)
    (hcode : e.code ≠ some 429) :
    (airdrop w address amount tr0).out = .threw e ∧
    airdropCalls (airdrop w address amount tr0).trace = airdropCalls tr0 + j ∧
    ∃ before,
      (airdrop w address amount tr0).trace =
        before ++ [.requestAirdrop address amount, .error [.str "Airdrop failed: ", .err e]] ∧
      tr0 <+: before ∧
      airdropCalls before = airdropCalls tr0 + (j - 1) := by
  rw [airdrop_run]
  interval_cases j
  · rw [airdropLoop_threw w address amount 2 500 _ e
      (by simpa [airdropCalls_append, airdropCalls] using hfail) hcode]
    refine ⟨rfl, by simp [airdropCalls_append, airdropCalls], _, rfl, ?_, ?_⟩
    · simp
    · simp [airdropCalls_append, airdropCalls]
  · obtain ⟨e0, h0, c0⟩ := hlimited 0 (by omega)
    rw [airdropLoop_rateLimited w address amount 2 500 _ e0
      (by simpa [airdropCalls_append, airdropCalls] using h0) c0]
    rw [airdropLoop_threw w address amount 1 _ _ e
      (by simpa [airdropCalls_append, airdropCalls] using hfail) hcode]
    refine ⟨rfl, by simp [airdropCalls_append, airdropCalls], _, rfl, ?_, ?_⟩
    · simp
    · simp [airdropCalls_append, airdropCalls]
  · obtain ⟨e0, h0, c0⟩ := hlimited 0 (by omega)
    obtain ⟨e1, h1, c1⟩ := hlimited 1 (by omega)
    rw [airdropLoop_rateLimited w address amount 2 500 _ e0
      (by simpa [airdropCalls_append, airdropCalls] using h0) c0]
    rw [airdropLoop_rateLimited w address amount 1 _ _ e1
      (by simpa [airdropCalls_append, airdropCalls] using h1) c1]
    rw [airdropLoop_threw w address amount 0 _ _ e
      (by simpa [airdropCalls_append, airdropCalls] using hfail) hcode]
    refine ⟨rfl, by simp [airdropCalls_append, airdropCalls], _, rfl, ?_, ?_⟩
    · simp
    · simp [airdropCalls_append, airdropCalls]

/-- C4: whatever `requestAirdrop` answers, `airdrop` (a total function, so it terminates)
issues at most 3 requests; when three calls in a row are rate limited it issues exactly 3
requests and then ends with `undefined`. -/
theorem airdrop_at_most_three_requests (w : World) (address : PublicKey) (amount : Nat)
    (tr0 : List Event) :
    airdropCalls (airdrop w address amount tr0).trace ≤ airdropCalls tr0 + 3 ∧
    ((∀ i, i < 3 → ∃ e,
        w.requestAirdrop (airdropCalls tr0 + i) address amount = .threw e ∧
          e.code = some 429) →
      airdropCalls (airdrop w address amount tr0).trace = airdropCalls tr0 + 3 ∧
      (airdrop w address amount tr0).out = .returned none) := by
  constructor
  · rw [airdrop_run]
    refine le_trans (airdropLoop_calls_le w address amount 3 500 _) ?_
    simp [airdropCalls_append, airdropCalls]
  · intro hlimited
    rw [airdrop_run, airdropLoop_exhausted w address amount _
      (by simpa [airdropCalls_append, airdropCalls] using hlimited)]
    simp [airdropCalls_append, airdropCalls]

/-- C3 at a concrete input: one rate-limited answer, then a server error. -/
theorem airdrop_rethrows_other_errors_witness :
    (airdrop (brokenFaucetWorld 1) ⟨"receiver"⟩ 50000 []).out = .threw serverError ∧
    airdropCalls (airdrop (brokenFaucetWorld 1) ⟨"receiver"⟩ 50000 []).trace
      = airdropCalls [] + 2 ∧
    ∃ before,
      (airdrop (brokenFaucetWorld 1) ⟨"receiver"⟩ 50000 []).trace =
        before ++ [.requestAirdrop ⟨"receiver"⟩ 50000,
          .error [.str "Airdrop failed: ", .err serverError]] ∧
      [] <+: before ∧
      airdropCalls before = airdropCalls [] + (2 - 1) :=
  airdrop_rethrows_other_errors (brokenFaucetWorld 1) ⟨"receiver"⟩ 50000 [] 2 serverError
    (by decide) (by decide)
    (fun i hi => ⟨rateLimited, by
      have hi0 : i = 0 := by omega
      subst hi0
      simp [brokenFaucetWorld, airdropCalls], rfl⟩)
    (by simp [brokenFaucetWorld, airdropCalls])
    (by decide)

/-- C4 at a concrete input: the faucet that is always rate limited. -/
theorem airdrop_at_most_three_requests_witness :
    airdropCalls (airdrop jammedWorld ⟨"receiver"⟩ 50000 []).trace ≤ airdropCalls [] + 3 ∧
    airdropCalls (airdrop jammedWorld ⟨"receiver"⟩ 50000 []).trace = airdropCalls [] + 3 ∧
    (airdrop jammedWorld ⟨"receiver"⟩ 50000 []).out = .returned none :=
  ⟨(airdrop_at_most_three_requests jammedWorld ⟨"receiver"⟩ 50000 []).1,
   (airdrop_at_most_three_requests jammedWorld ⟨"receiver"⟩ 50000 []).2
     (fun _ _ => ⟨rateLimited, rfl, rfl⟩)⟩

/-! ## The runner -/

@[simp] theorem scriptedTask_run (events : List Event) (failure : Option JsError)
    (tr : List Event) :
    scriptedTask events failure tr =
      ⟨match failure with
        | none => .returned ()
        | some e => .threw e,
       tr ++ events⟩ := rfl

/-- A `try` whose `catch` block only logs completes normally. -/
theorem tryJs_log_returns (t : M Unit) (args : List Arg) (tr : List Event) :
    ∃ tr1, tryJs t (fun _ => consoleLog args) tr = ⟨.returned (), tr1⟩ := by
  rcases h : t tr with ⟨o | e, tr1⟩
  · exact ⟨tr1, by simp [h]⟩
  · exact ⟨tr1 ++ [.log args], by simp [h]⟩

/-- C5: `main` is `runTasks` applied to `task1`, `task2`, `task3`, `task4`.  Whatever the four
tasks do, the runner does not throw; and for tasks that append the events `ev1 .. ev4` and
then return or throw, the trace of the run is the events of the four tasks, once each and in
the order 1, 2, 3, 4, each followed by its `incomplete` line exactly when that task threw. -/
theorem main_isolates_task_failures :
    (∀ w, main w = runTasks (task1 w) (task2 w) (task3 w) (task4 w)) ∧
    (∀ (t1 t2 t3 t4 : M Unit) (tr0 : List Event) (e : JsError),
      (runTasks t1 t2 t3 t4 tr0).out ≠ .threw e) ∧
    (∀ (ev1 ev2 ev3 ev4 : List Event) (f1 f2 f3 f4 : Option JsError) (tr0 : List Event),
      runTasks (scriptedTask ev1 f1) (scriptedTask ev2 f2) (scriptedTask ev3 f3)
          (scriptedTask ev4 f4) tr0 =
        ⟨.returned (),
          tr0 ++ (ev1 ++ incompleteLog "Task 1 incomplete." f1
            ++ (ev2 ++ incompleteLog "Task 2 is incomplete." f2)
            ++ (ev3 ++ incompleteLog "Task 3 is incomplete." f3)
            ++ (ev4 ++ incompleteLog "Task 4 is incomplete." f4))⟩) := by
  refine ⟨fun _ => rfl, ?_, ?_⟩
  · intro t1 t2 t3 t4 tr0 e
    simp only [runTasks, bind_run]
    obtain ⟨tr1, h1⟩ := tryJs_log_returns t1 [.str "Task 1 incomplete."] tr0
    obtain ⟨tr2, h2⟩ := tryJs_log_returns t2 [.str "Task 2 is incomplete."] tr1
    obtain ⟨tr3, h3⟩ := tryJs_log_returns t3 [.str "Task 3 is incomplete."] tr2
    obtain ⟨tr4, h4⟩ := tryJs_log_returns t4 [.str "Task 4 is incomplete."] tr3
    simp only [h1, h2, h3, h4]
    simp
  · intro ev1 ev2 ev3 ev4 f1 f2 f3 f4 tr0
    cases f1 <;> cases f2 <;> cases f3 <;> cases f4 <;>
      simp [runTasks, incompleteLog]

/-! ## Balance query and transaction construction -/

/-- The run of `checkBalance` when the gateway answers the query. -/
theorem checkBalance_returned (w : World) (address : PublicKey) (tr : List Event) (b : Nat)
    (h : w.getBalance (balanceCalls tr) address = .returned b) :
    checkBalance w address tr =
      ⟨.returned (some b),
        tr ++ [.getBalance address,
          .log [.str "SOL Balance: ", .num b, .str " Lamports"]]⟩ := by
  simp [checkBalance, h]

/-- The run of `checkBalance` when the gateway fails the query. -/
theorem checkBalance_threw (w : World) (address : PublicKey) (tr : List Event) (e : JsError)
    (h : w.getBalance (balanceCalls tr) address = .threw e) :
    checkBalance w address tr =
      ⟨.returned none,
        tr ++ [.getBalance address,
          .error [.str "Error fetching balance for ", .str address.toString, .str ": ",
            .err e]]⟩ := by
  simp [checkBalance, h]

/-- C8: `checkBalance(address)` never throws; when `getBalance` answers `b` it returns
exactly `b`; when `getBalance` fails it returns `undefined`, which is no amount at all (in
particular not zero); and the only gateway operation it performs is one `getBalance`. -/
theorem checkBalance_never_throws (w : World) (address : PublicKey) (tr0 : List Event) :
    (∀ e, (checkBalance w address tr0).out ≠ .threw e) ∧
    (∀ b, w.getBalance (balanceCalls tr0) address = .returned b →
      (checkBalance w address tr0).out = .returned (some b)) ∧
    (∀ e, w.getBalance (balanceCalls tr0) address = .threw e →
      (checkBalance w address tr0).out = .returned none ∧
      ∀ b : Nat, (checkBalance w address tr0).out ≠ .returned (some b)) ∧
    ∃ new, (checkBalance w address tr0).trace = tr0 ++ new ∧
      new.filter Event.isGateway = [.getBalance address] := by
  cases h : w.getBalance (balanceCalls tr0) address with
  | returned b =>
    rw [checkBalance_returned w address tr0 b h]
    exact ⟨by simp, by simp, by simp, _, rfl, by simp [Event.isGateway]⟩
  | threw e =>
    rw [checkBalance_threw w address tr0 e h]
    exact ⟨by simp, by simp, by simp, _, rfl, by simp [Event.isGateway]⟩

/-- C8 at concrete inputs: a gateway that answers 1000000 and a gateway that fails. -/
theorem checkBalance_never_throws_witness :
    (checkBalance calmWorld ⟨"sender"⟩ []).out = .returned (some 1000000) ∧
    ((checkBalance offlineWorld ⟨"sender"⟩ []).out = .returned none ∧
      ∀ b : Nat, (checkBalance offlineWorld ⟨"sender"⟩ []).out ≠ .returned (some b)) :=
  ⟨(checkBalance_never_throws calmWorld ⟨"sender"⟩ []).2.1 1000000 rfl,
   (checkBalance_never_throws offlineWorld ⟨"sender"⟩ []).2.2.1 serverError rfl⟩

/-- Every amount below `2 ^ 63` is accepted by `SystemProgram.transfer`. -/
theorem lamportsAccepted_of_lt (w : World) (amount : Nat) (h : amount < 2 ^ 63) :
    lamportsAccepted w amount = true := by
  unfold lamportsAccepted
  rw [decide_eq_true h]
  rfl

/-- The run of `createTransaction` when the SDK rejects the amount: the block reference is
not asked for. -/
theorem createTransaction_rejected (w : World) (sender receiver : PublicKey) (amount : Nat)
    (tr : List Event) (hreject : lamportsAccepted w amount = false) :
    createTransaction w sender receiver amount tr =
      ⟨.returned none,
        tr ++ [.log [.str "Creating a transaction..."],
          .error [.str "Transaction failed due to: ", .err (w.lamportsError amount)]]⟩ := by
  simp [createTransaction, systemTransfer, hreject]

/-- The run of `createTransaction` when the gateway supplies the block reference. -/
theorem createTransaction_returned (w : World) (sender receiver : PublicKey) (amount : Nat)
    (tr : List Event) (h : String) (haccept : lamportsAccepted w amount = true)
    (hb : w.getRecentBlockhash (blockhashCalls tr) = .returned h) :
    createTransaction w sender receiver amount tr =
      ⟨.returned (some
          { instructions := [{ fromPubkey := sender, toPubkey := receiver, lamports := amount }],
            recentBlockhash := some h,
            signatures := [] }),
        tr ++ [.log [.str "Creating a transaction..."], .getRecentBlockhash]⟩ := by
  have hidx : blockhashCalls (tr ++ [.log [.str "Creating a transaction..."]])
      = blockhashCalls tr := by simp [blockhashCalls]
  simp [createTransaction, systemTransfer, haccept, hidx, hb]

/-- The run of `createTransaction` when the gateway fails to supply the block reference. -/
theorem createTransaction_threw (w : World) (sender receiver : PublicKey) (amount : Nat)
    (tr : List Event) (e : JsError) (haccept : lamportsAccepted w amount = true)
    (hb : w.getRecentBlockhash (blockhashCalls tr) = .threw e) :
    createTransaction w sender receiver amount tr =
      ⟨.returned none,
        tr ++ [.log [.str "Creating a transaction..."], .getRecentBlockhash,
          .error [.str "Transaction failed due to: ", .err e]]⟩ := by
  have hidx : blockhashCalls (tr ++ [.log [.str "Creating a transaction..."]])
      = blockhashCalls tr := by simp [blockhashCalls]
  simp [createTransaction, systemTransfer, haccept, hidx, hb]

/-- C9, the claim as stated fails: in the calm world the gateway supplies the block
reference `blockhash1`, yet for the amount `2 ^ 64` the function `createTransaction` returns
no transaction, and it does so without asking the gateway for a block reference. -/
theorem createTransaction_rejects_large_amount :
    calmWorld.getRecentBlockhash (blockhashCalls []) = .returned "blockhash1" ∧
    (createTransaction calmWorld ⟨"sender"⟩ ⟨"receiver"⟩ (2 ^ 64) []).out = .returned none ∧
    blockhashCalls (createTransaction calmWorld ⟨"sender"⟩ ⟨"receiver"⟩ (2 ^ 64) []).trace
      = 0 ∧
    ¬ (createTransaction calmWorld ⟨"sender"⟩ ⟨"receiver"⟩ (2 ^ 64) []).out =
        .returned (some
          { instructions :=
              [{ fromPubkey := ⟨"sender"⟩, toPubkey := ⟨"receiver"⟩, lamports := 2 ^ 64 }],
            recentBlockhash := some "blockhash1",
            signatures := [] }) := by
  have hrun := createTransaction_rejected calmWorld ⟨"sender"⟩ ⟨"receiver"⟩ (2 ^ 64) []
    (by simp [lamportsAccepted, calmWorld])
  rw [hrun]
  exact ⟨rfl, rfl, rfl, by simp⟩

/-- C9 amended: `createTransaction(sender, receiver, amount)` never throws.  For an amount
that `SystemProgram.transfer` accepts, which every amount below `2 ^ 63` is, zero included:
when `getRecentBlockhash` answers `h` it returns a transaction with exactly one transfer
instruction, from `sender` to `receiver` of `amount`, and block reference `h`; when
`getRecentBlockhash` fails it returns no transaction.  For an amount that the SDK rejects it
returns no transaction and does not ask the gateway for a block reference. -/
theorem createTransaction_builds_one_transfer (w : World) (sender receiver : PublicKey)
    (amount : Nat) (tr0 : List Event) :
    (∀ e, (createTransaction w sender receiver amount tr0).out ≠ .threw e) ∧
    (amount < 2 ^ 63 → lamportsAccepted w amount = true) ∧
    (lamportsAccepted w amount = true →
      (∀ h, w.getRecentBlockhash (blockhashCalls tr0) = .returned h →
        (createTransaction w sender receiver amount tr0).out =
          .returned (some
            { instructions :=
                [{ fromPubkey := sender, toPubkey := receiver, lamports := amount }],
              recentBlockhash := some h,
              signatures := [] })) ∧
      (∀ e, w.getRecentBlockhash (blockhashCalls tr0) = .threw e →
        (createTransaction w sender receiver amount tr0).out = .returned none)) ∧
    (lamportsAccepted w amount = false →
      (createTransaction w sender receiver amount tr0).out = .returned none ∧
      blockhashCalls (createTransaction w sender receiver amount tr0).trace
        = blockhashCalls tr0) := by
  refine ⟨?_, lamportsAccepted_of_lt w amount, ?_, ?_⟩
  · intro e
    cases haccept : lamportsAccepted w amount with
    | false => rw [createTransaction_rejected w sender receiver amount tr0 haccept]; simp
    | true =>
      cases hb : w.getRecentBlockhash (blockhashCalls tr0) with
      | returned h =>
        rw [createTransaction_returned w sender receiver amount tr0 h haccept hb]; simp
      | threw e0 =>
        rw [createTransaction_threw w sender receiver amount tr0 e0 haccept hb]; simp
  · intro haccept
    refine ⟨fun h hb => ?_, fun e hb => ?_⟩
    · rw [createTransaction_returned w sender receiver amount tr0 h haccept hb]
    · rw [createTransaction_threw w sender receiver amount tr0 e haccept hb]
  · intro hreject
    rw [createTransaction_rejected w sender receiver amount tr0 hreject]
    exact ⟨rfl, by simp [blockhashCalls]⟩

/-- C9 amended, at concrete inputs: a transfer of zero with a block reference, a gateway
that cannot supply a block reference, and the amount `2 ^ 64` that the SDK rejects. -/
theorem createTransaction_builds_one_transfer_witness :
    (createTransaction calmWorld ⟨"sender"⟩ ⟨"receiver"⟩ 0 []).out =
      .returned (some
        { instructions :=
            [{ fromPubkey := ⟨"sender"⟩, toPubkey := ⟨"receiver"⟩, lamports := 0 }],
          recentBlockhash := some "blockhash1",
          signatures := [] }) ∧
    (createTransaction offlineWorld ⟨"sender"⟩ ⟨"receiver"⟩ 0 []).out = .returned none ∧
    ((createTransaction calmWorld ⟨"sender"⟩ ⟨"receiver"⟩ (2 ^ 64) []).out = .returned none ∧
      blockhashCalls (createTransaction calmWorld ⟨"sender"⟩ ⟨"receiver"⟩ (2 ^ 64) []).trace
        = blockhashCalls []) :=
  ⟨((createTransaction_builds_one_transfer calmWorld ⟨"sender"⟩ ⟨"receiver"⟩ 0 []).2.2.1
      ((createTransaction_builds_one_transfer calmWorld ⟨"sender"⟩ ⟨"receiver"⟩ 0 []).2.1
        (by decide))).1 "blockhash1" rfl,
   ((createTransaction_builds_one_transfer offlineWorld ⟨"sender"⟩ ⟨"receiver"⟩ 0 []).2.2.1
      ((createTransaction_builds_one_transfer offlineWorld ⟨"sender"⟩ ⟨"receiver"⟩ 0 []).2.1
        (by decide))).2 serverError rfl,
   (createTransaction_builds_one_transfer calmWorld ⟨"sender"⟩ ⟨"receiver"⟩ (2 ^ 64)
      []).2.2.2 (by simp [lamportsAccepted, calmWorld])⟩

/-! ## The transfer -/

/-- The function `task2` is the balance query followed by the shared transfer block. -/
theorem task2_eq (w : World) :
    task2 w =
      (checkBalance w ⟨"7GnVC9WogD4DKRhFn9QXMiGJtPSP9Skz7reTpfgqXrL8"⟩ >>= fun solBalance =>
        transferFrom w ⟨"7GnVC9WogD4DKRhFn9QXMiGJtPSP9Skz7reTpfgqXrL8"⟩
          ⟨"63EEC9FfGyksm7PkVC6z8uAmqozbQcTzbkWJNsgqjkFs"⟩ solBalance) := rfl

/-- The function `task3` is the account creation, the balance query and the airdrop followed
by the shared transfer block. -/
theorem task3_eq (w : World) :
    task3 w =
      (createAccount w >>= fun newAccount =>
        checkBalance w ⟨"7GnVC9WogD4DKRhFn9QXMiGJtPSP9Skz7reTpfgqXrL8"⟩ >>= fun solBalance =>
        airdrop w newAccount (LAMPORTS_PER_SOL / 1000000 * 5 * 10) >>= fun _ =>
        transferFrom w ⟨"7GnVC9WogD4DKRhFn9QXMiGJtPSP9Skz7reTpfgqXrL8"⟩ newAccount
          solBalance) := rfl

theorem steps_append (tr new : List Event) : steps (tr ++ new) = steps tr ++ steps new := by
  simp [steps]

theorem blockhashCalls_append (tr new : List Event) :
    blockhashCalls (tr ++ new) = blockhashCalls tr + blockhashCalls new := by
  simp [blockhashCalls]

theorem sendCalls_append (tr new : List Event) :
    sendCalls (tr ++ new) = sendCalls tr + sendCalls new := by
  simp [sendCalls]

theorem confirmCalls_append (tr new : List Event) :
    confirmCalls (tr ++ new) = confirmCalls tr + confirmCalls new := by
  simp [confirmCalls]

/-- Events without a transfer step contain no block reference, send or confirm call. -/
theorem calls_of_steps_nil (new : List Event) (h : steps new = []) :
    blockhashCalls new = 0 ∧ sendCalls new = 0 ∧ confirmCalls new = 0 := by
  induction new with
  | nil => simp [blockhashCalls, sendCalls, confirmCalls]
  | cons ev rest ih =>
    cases ev <;>
      simp_all [steps, Event.step, blockhashCalls, sendCalls, confirmCalls, List.filterMap_cons]

/-- The function `getSecretKey` never throws, its result does not depend on the trace, and
it records the read of the environment followed by at most one error line. -/
theorem getSecretKey_run (w : World) :
    ∃ (key : Option Keypair) (rest : List Event),
      (∀ tr, getSecretKey w tr = ⟨.returned key, tr ++ .getEnv "SOLANA_SECRET_KEY" :: rest⟩) ∧
      steps rest = [] := by
  cases henv : w.secretKeyEnv with
  | none =>
    exact ⟨none, _, fun tr => by simp [getSecretKey, henv]; rfl, by simp [steps, Event.step]⟩
  | some enc =>
    by_cases hempty : enc = ""
    · exact ⟨none, _, fun tr => by simp [getSecretKey, henv, hempty]; rfl,
        by simp [steps, Event.step]⟩
    · cases hdec : w.base58decode enc with
      | threw e =>
        exact ⟨none, _, fun tr => by simp [getSecretKey, henv, hempty, hdec]; rfl,
          by simp [steps, Event.step]⟩
      | returned bytes =>
        cases hkey : w.fromSecretKey bytes with
        | threw e =>
          exact ⟨none, _, fun tr => by simp [getSecretKey, henv, hempty, hdec, hkey]; rfl,
            by simp [steps, Event.step]⟩
        | returned key =>
          exact ⟨some key, [], fun tr => by simp [getSecretKey, henv, hempty, hdec, hkey],
            by simp [steps]⟩

/-- The run of the sign and submit block when signing fails. -/
theorem signAndSubmit_sign_threw (w : World) (tx : Transaction) (key : Keypair)
    (tr : List Event) (e : JsError) (hsign : w.sign tx key = .threw e) :
    signAndSubmit w tx key tr =
      ⟨.returned (),
        tr ++ [.sign tx key, .error [.str "Transaction failed: ", .str e.message]]⟩ := by
  simp [signAndSubmit, signTransaction, hsign]

/-- The run of the sign and submit block when the submission fails. -/
theorem signAndSubmit_send_threw (w : World) (tx : Transaction) (key : Keypair)
    (tr : List Event) (sig : String) (e : JsError)
    (hsign : w.sign tx key = .returned sig)
    (hsend : w.sendTransaction (sendCalls tr)
      { tx with signatures := [(key.publicKey, sig)] } [key] = .threw e) :
    signAndSubmit w tx key tr =
      ⟨.returned (),
        tr ++ [.sign tx key,
          .sendTransaction { tx with signatures := [(key.publicKey, sig)] } [key],
          .error [.str "Transaction failed: ", .str e.message]]⟩ := by
  simp only [sendCalls] at hsend
  simp [signAndSubmit, signTransaction, sendTransaction, hsign, sendCalls, hsend]

/-- The run of the sign and submit block when the confirmation fails. -/
theorem signAndSubmit_confirm_threw (w : World) (tx : Transaction) (key : Keypair)
    (tr : List Event) (sig s : String) (e : JsError)
    (hsign : w.sign tx key = .returned sig)
    (hsend : w.sendTransaction (sendCalls tr)
      { tx with signatures := [(key.publicKey, sig)] } [key] = .returned s)
    (hconfirm : w.confirmTransaction (confirmCalls tr) s = .threw e) :
    signAndSubmit w tx key tr =
      ⟨.returned (),
        tr ++ [.sign tx key,
          .sendTransaction { tx with signatures := [(key.publicKey, sig)] } [key],
          .log [.str "Transaction signature: ", .str s],
          .confirmTransaction s,
          .error [.str "Transaction failed: ", .str e.message]]⟩ := by
  simp only [sendCalls] at hsend
  simp only [confirmCalls] at hconfirm
  simp [signAndSubmit, signTransaction, sendTransaction, confirmTransaction, hsign,
    sendCalls, confirmCalls, hsend, hconfirm]

/-- The run of the sign and submit block when signing, submission and confirmation succeed. -/
theorem signAndSubmit_confirmed (w : World) (tx : Transaction) (key : Keypair)
    (tr : List Event) (sig s : String) (c : Confirmation)
    (hsign : w.sign tx key = .returned sig)
    (hsend : w.sendTransaction (sendCalls tr)
      { tx with signatures := [(key.publicKey, sig)] } [key] = .returned s)
    (hconfirm : w.confirmTransaction (confirmCalls tr) s = .returned c) :
    signAndSubmit w tx key tr =
      ⟨.returned (),
        tr ++ [.sign tx key,
          .sendTransaction { tx with signatures := [(key.publicKey, sig)] } [key],
          .log [.str "Transaction signature: ", .str s],
          .confirmTransaction s,
          .log [.str "Transaction confirmed: ", .conf c],
          .log [.str "View transaction on Solana Explorer: ",
            .str ("https://explorer.solana.com/tx/" ++ s ++ "?cluster=devnet")]]⟩ := by
  simp only [sendCalls] at hsend
  simp only [confirmCalls] at hconfirm
  simp [signAndSubmit, signTransaction, sendTransaction, confirmTransaction, hsign,
    sendCalls, confirmCalls, hsend, hconfirm]

/-- The sign and submit block never throws; it signs, then submits only if signing
succeeded, then confirms only if the submission succeeded. -/
theorem signAndSubmit_discipline (w : World) (tx : Transaction) (key : Keypair)
    (tr : List Event) :
    ∃ new, signAndSubmit w tx key tr = ⟨.returned (), tr ++ new⟩ ∧
      (steps new = [.sign] ∨ steps new = [.sign, .send] ∨
        steps new = [.sign, .send, .confirm]) ∧
      (Step.send ∈ steps new →
        ∃ tx0 key0 sig, Event.sign tx0 key0 ∈ new ∧ w.sign tx0 key0 = .returned sig) ∧
      (Step.confirm ∈ steps new →
        ∃ tx1 keys s, Event.sendTransaction tx1 keys ∈ new ∧
          w.sendTransaction (sendCalls tr) tx1 keys = .returned s) := by
  cases hsign : w.sign tx key with
  | threw e =>
    refine ⟨_, signAndSubmit_sign_threw w tx key tr e hsign, ?_, ?_, ?_⟩
    · simp [steps, Event.step]
    · simp [steps, Event.step]
    · simp [steps, Event.step]
  | returned sig =>
    cases hsend : w.sendTransaction (sendCalls tr)
        { tx with signatures := [(key.publicKey, sig)] } [key] with
    | threw e =>
      refine ⟨_, signAndSubmit_send_threw w tx key tr sig e hsign hsend, ?_, ?_, ?_⟩
      · simp [steps, Event.step]
      · intro _
        exact ⟨tx, key, sig, by simp, hsign⟩
      · simp [steps, Event.step]
    | returned s =>
      cases hconfirm : w.confirmTransaction (confirmCalls tr) s with
      | threw e =>
        refine ⟨_, signAndSubmit_confirm_threw w tx key tr sig s e hsign hsend hconfirm,
          ?_, ?_, ?_⟩
        · simp [steps, Event.step]
        · intro _
          exact ⟨tx, key, sig, by simp, hsign⟩
        · intro _
          exact ⟨_, _, s, by simp, hsend⟩
      | returned c =>
        refine ⟨_, signAndSubmit_confirmed w tx key tr sig s c hsign hsend hconfirm, ?_, ?_, ?_⟩
        · simp [steps, Event.step]
        · intro _
          exact ⟨tx, key, sig, by simp, hsign⟩
        · intro _
          exact ⟨_, _, s, by simp, hsend⟩

/-- In an initial segment of the five steps, every step present has its predecessor. -/
theorem step_predecessors (l : List Step)
    (h : l <+: [Step.build, Step.credential, Step.sign, Step.send, Step.confirm]) :
    (Step.sign ∈ l → Step.credential ∈ l) ∧ (Step.send ∈ l → Step.sign ∈ l) ∧
    (Step.confirm ∈ l → Step.send ∈ l) := by
  have hlen : l.length ≤ 5 := by simpa using h.length_le
  rw [List.prefix_iff_eq_take] at h
  generalize l.length = n at h hlen
  interval_cases n <;> subst h <;> simp

/-- The discipline of a transfer from its four local conditions. -/
theorem discipline_intro (w : World) (tr new : List Event)
    (hsegment : steps new <+: [.build, .credential, .sign, .send, .confirm])
    (hbuilt : Step.credential ∈ steps new →
      ∃ h, w.getRecentBlockhash (blockhashCalls tr) = .returned h)
    (hresolved : Step.sign ∈ steps new →
      ∃ key, ∀ tr1, (getSecretKey w tr1).out = .returned (some key))
    (hsigned : Step.send ∈ steps new →
      ∃ tx key sig, Event.sign tx key ∈ new ∧ w.sign tx key = .returned sig)
    (hsent : Step.confirm ∈ steps new →
      ∃ tx keys s, Event.sendTransaction tx keys ∈ new ∧
        w.sendTransaction (sendCalls tr) tx keys = .returned s) :
    TransferDiscipline w tr new := by
  obtain ⟨h1, h2, h3⟩ := step_predecessors _ hsegment
  refine ⟨hsegment, hbuilt, fun h => ⟨hbuilt (h1 h), hresolved h⟩,
    fun h => ⟨hbuilt (h1 (h2 h)), hresolved (h2 h), hsigned h⟩,
    fun h => ⟨hbuilt (h1 (h2 (h3 h))), hresolved (h2 (h3 h)), hsigned (h3 h), hsent h⟩⟩

/-- A task that performs no transfer step keeps the discipline of a transfer. -/
theorem discipline_of_quiet (w : World) (tr new : List Event) (hquiet : steps new = []) :
    TransferDiscipline w tr new := by
  apply discipline_intro <;> rw [hquiet] <;> simp

/-- Lines 102 to 128, run after events `pre` that contain no transfer step: the block
never throws and keeps the discipline of a transfer. -/
theorem submitTransfer_discipline (w : World) (sender receiver : PublicKey) (amount : Nat)
    (tr pre : List Event) (hquiet : steps pre = []) :
    ∃ new, submitTransfer w sender receiver amount (tr ++ pre) = ⟨.returned (), tr ++ new⟩ ∧
      TransferDiscipline w tr new := by
  have hcalls := calls_of_steps_nil pre hquiet
  have hbuildSteps : steps [.log [.str "Creating a transaction..."], .getRecentBlockhash]
      = [Step.build] := rfl
  have henvSteps : steps [.getEnv "SOLANA_SECRET_KEY"] = [Step.credential] := rfl
  unfold submitTransfer
  cases haccept : lamportsAccepted w amount with
  | false =>
    rw [bind_run, createTransaction_rejected w sender receiver _ (tr ++ pre) haccept]
    refine ⟨pre ++ [.log [.str "Creating a transaction..."],
      .error [.str "Transaction failed due to: ", .err (w.lamportsError amount)],
      .error [.str "Failed to create a transaction."]], by simp, ?_⟩
    apply discipline_of_quiet
    rw [steps_append, hquiet]
    rfl
  | true =>
    cases hb : w.getRecentBlockhash (blockhashCalls tr) with
    | threw e =>
      rw [bind_run, createTransaction_threw w sender receiver _ (tr ++ pre) e haccept
        (by rw [blockhashCalls_append, hcalls.1]; exact hb)]
      refine ⟨pre ++ ([.log [.str "Creating a transaction..."], .getRecentBlockhash] ++
        [.error [.str "Transaction failed due to: ", .err e],
         .error [.str "Failed to create a transaction."]]), by simp, ?_⟩
      have hst : steps (pre ++ ([.log [.str "Creating a transaction..."], .getRecentBlockhash] ++
          [.error [.str "Transaction failed due to: ", .err e],
           .error [.str "Failed to create a transaction."]])) = [Step.build] := by
        rw [steps_append, steps_append, hquiet, hbuildSteps]
        rfl
      apply discipline_intro <;> rw [hst] <;> simp
    | returned h =>
      rw [bind_run, createTransaction_returned w sender receiver _ (tr ++ pre) h haccept
        (by rw [blockhashCalls_append, hcalls.1]; exact hb)]
      obtain ⟨key, rest, hkey, hrest⟩ := getSecretKey_run w
      have hcallsRest := calls_of_steps_nil rest hrest
      simp only [bind_run, hkey]
      cases key with
      | none =>
        refine ⟨pre ++ ([.log [.str "Creating a transaction..."], .getRecentBlockhash] ++
          ([.getEnv "SOLANA_SECRET_KEY"] ++ (rest ++
            [.error [.str "Failed to get secret key."]]))), by simp, ?_⟩
        have hst : steps (pre ++ ([.log [.str "Creating a transaction..."],
            .getRecentBlockhash] ++ ([.getEnv "SOLANA_SECRET_KEY"] ++ (rest ++
              [.error [.str "Failed to get secret key."]])))) =
            [Step.build, Step.credential] := by
          rw [steps_append, steps_append, steps_append, steps_append, hquiet, hbuildSteps,
            henvSteps, hrest]
          rfl
        apply discipline_intro <;> rw [hst] <;> simp
        exact ⟨h, hb⟩
      | some key =>
        simp only []
        obtain ⟨new, hrun, hsteps, hsigned, hsent⟩ := signAndSubmit_discipline w
          { instructions := [{ fromPubkey := sender, toPubkey := receiver, lamports := amount }],
            recentBlockhash := some h, signatures := [] } key
          (tr ++ pre ++ [.log [.str "Creating a transaction..."], .getRecentBlockhash] ++
            .getEnv "SOLANA_SECRET_KEY" :: rest)
        rw [hrun]
        have hidx : sendCalls (tr ++ pre ++
            [.log [.str "Creating a transaction..."], .getRecentBlockhash] ++
              .getEnv "SOLANA_SECRET_KEY" :: rest) = sendCalls tr := by
          have hcons : ∀ l : List Event,
              sendCalls (.getEnv "SOLANA_SECRET_KEY" :: l) = sendCalls l := by
            intro l; simp [sendCalls]
          rw [sendCalls_append, sendCalls_append, sendCalls_append, hcalls.2.1, hcons,
            hcallsRest.2.1]
          simp [sendCalls]
        rw [hidx] at hsent
        refine ⟨pre ++ ([.log [.str "Creating a transaction..."], .getRecentBlockhash] ++
          ([.getEnv "SOLANA_SECRET_KEY"] ++ (rest ++ new))), by simp, ?_⟩
        have hst : steps (pre ++ ([.log [.str "Creating a transaction..."],
            .getRecentBlockhash] ++ ([.getEnv "SOLANA_SECRET_KEY"] ++ (rest ++ new)))) =
            Step.build :: Step.credential :: steps new := by
          rw [steps_append, steps_append, steps_append, steps_append, hquiet, hbuildSteps,
            henvSteps, hrest]
          rfl
        have hsend : Step.send ∈ Step.build :: Step.credential :: steps new →
            Step.send ∈ steps new := by simp
        have hconfirm : Step.confirm ∈ Step.build :: Step.credential :: steps new →
            Step.confirm ∈ steps new := by simp
        apply discipline_intro
        · rw [hst]
          rcases hsteps with h1 | h1 | h1 <;> rw [h1] <;> simp
        · exact fun _ => ⟨h, hb⟩
        · exact fun _ => ⟨key, fun tr1 => by rw [hkey]⟩
        · rw [hst]
          intro hmem
          obtain ⟨tx, k, sig, hin, hok⟩ := hsigned (hsend hmem)
          exact ⟨tx, k, sig, by simp [hin], hok⟩
        · rw [hst]
          intro hmem
          obtain ⟨tx, ks, sg, hin, hok⟩ := hsent (hconfirm hmem)
          exact ⟨tx, ks, sg, by simp [hin], hok⟩

/-- The shared transfer block, run after events `pre` that contain no transfer step, never
throws and keeps the discipline of a transfer. -/
theorem transferFrom_discipline (w : World) (sender receiver : PublicKey)
    (solBalance : Option Nat) (tr pre : List Event) (hquiet : steps pre = []) :
    ∃ new, transferFrom w sender receiver solBalance (tr ++ pre) = ⟨.returned (), tr ++ new⟩ ∧
      TransferDiscipline w tr new := by
  unfold transferFrom
  by_cases hlt : jsLt solBalance (LAMPORTS_PER_SOL / 1000000 * 5) = true
  · have hrun := submitTransfer_discipline w sender receiver (LAMPORTS_PER_SOL / 1000000 * 5)
      tr (pre ++ [.log [.str "Your balance is too low."],
        .log [.str "Processing without sufficient balance..."]])
      (by rw [steps_append, hquiet]; rfl)
    simpa [hlt] using hrun
  · have hrun := submitTransfer_discipline w sender receiver (LAMPORTS_PER_SOL / 1000000 * 5)
      tr pre hquiet
    simpa [hlt] using hrun

/-- The run of `createAccount` when the key generator answers. -/
theorem createAccount_returned (w : World) (tr : List Event) (pair : Keypair)
    (h : w.generate (generateCalls tr) = .returned pair) :
    createAccount w tr =
      ⟨.returned pair.publicKey,
        tr ++ [.log [.str "Generating new account..."], .generate,
          .log [.str "Public key: ", .str pair.publicKey.toString]]⟩ := by
  have hidx : generateCalls (tr ++ [.log [.str "Generating new account..."]])
      = generateCalls tr := by simp [generateCalls]
  simp [createAccount, hidx, h]

/-- The run of `createAccount` when the key generator fails: the fault is thrown on. -/
theorem createAccount_threw (w : World) (tr : List Event) (e : JsError)
    (h : w.generate (generateCalls tr) = .threw e) :
    createAccount w tr =
      ⟨.threw e, tr ++ [.log [.str "Generating new account..."], .generate]⟩ := by
  have hidx : generateCalls (tr ++ [.log [.str "Generating new account..."]])
      = generateCalls tr := by simp [generateCalls]
  simp [createAccount, hidx, h]

/-- The airdrop loop performs no transfer step and no balance query. -/
theorem airdropLoop_quiet (w : World) (address : PublicKey) (amount : Nat) :
    ∀ (n delay : Nat) (tr : List Event),
      ∃ out new, airdropLoop w address amount n delay tr = ⟨out, tr ++ new⟩ ∧
        steps new = [] ∧ balanceCalls new = 0 := by
  intro n
  induction n with
  | zero => intro delay tr; exact ⟨.returned none, [], by simp [airdropLoop], rfl, rfl⟩
  | succ n ih =>
    intro delay tr
    cases h : w.requestAirdrop (airdropCalls tr) address amount with
    | returned t =>
      exact ⟨_, _, airdropLoop_returned w address amount n delay tr t h, rfl, rfl⟩
    | threw e =>
      by_cases hcode : e.code = some 429
      · rw [airdropLoop_rateLimited w address amount n delay tr e h hcode]
        obtain ⟨out, new, hrun, hquiet, hbal⟩ := ih (delay * 2)
          (tr ++ [.requestAirdrop address amount,
            .error [.str "Airdrop rate limit reached. Retrying in ", .num delay,
              .str " ms..."],
            .setTimeout delay])
        refine ⟨out, [.requestAirdrop address amount,
            .error [.str "Airdrop rate limit reached. Retrying in ", .num delay,
              .str " ms..."],
            .setTimeout delay] ++ new, by rw [hrun, List.append_assoc], ?_, ?_⟩
        · rw [steps_append, hquiet]; rfl
        · simp only [balanceCalls] at hbal ⊢
          rw [List.countP_append, hbal]; rfl
      · exact ⟨_, _, airdropLoop_threw w address amount n delay tr e h hcode, rfl, rfl⟩

/-- The function `airdrop` performs no transfer step and no balance query. -/
theorem airdrop_quiet (w : World) (address : PublicKey) (amount : Nat) (tr : List Event) :
    ∃ out new, airdrop w address amount tr = ⟨out, tr ++ new⟩ ∧
      steps new = [] ∧ balanceCalls new = 0 := by
  rw [airdrop_run]
  obtain ⟨out, new, hrun, hquiet, hbal⟩ := airdropLoop_quiet w address amount 3 500
    (tr ++ [.log [.str "Airdropping ", .num amount, .str " Lamports to ",
      .str address.toString, .str " ..."]])
  refine ⟨out, [.log [.str "Airdropping ", .num amount, .str " Lamports to ",
      .str address.toString, .str " ..."]] ++ new, by rw [hrun, List.append_assoc], ?_, ?_⟩
  · rw [steps_append, hquiet]; rfl
  · simp only [balanceCalls] at hbal ⊢
    rw [List.countP_append, hbal]; rfl

/-- The function `task2` never throws and keeps the discipline of a transfer. -/
theorem task2_discipline (w : World) (tr0 : List Event) :
    ∃ new, task2 w tr0 = ⟨.returned (), tr0 ++ new⟩ ∧ TransferDiscipline w tr0 new := by
  rw [task2_eq, bind_run]
  cases hbal : w.getBalance (balanceCalls tr0) ⟨"7GnVC9WogD4DKRhFn9QXMiGJtPSP9Skz7reTpfgqXrL8"⟩ with
  | returned b =>
    rw [checkBalance_returned w _ tr0 b hbal]
    exact transferFrom_discipline w _ _ _ tr0 _ rfl
  | threw e =>
    rw [checkBalance_threw w _ tr0 e hbal]
    exact transferFrom_discipline w _ _ _ tr0 _ rfl

/-- The function `task3` keeps the discipline of a transfer, and it throws only before the
first step of the transfer. -/
theorem task3_discipline (w : World) (tr0 : List Event) :
    ∃ new, (task3 w tr0).trace = tr0 ++ new ∧ TransferDiscipline w tr0 new ∧
      (steps new ≠ [] → (task3 w tr0).out = .returned ()) := by
  rw [task3_eq, bind_run]
  cases hgen : w.generate (generateCalls tr0) with
  | threw e =>
    rw [createAccount_threw w tr0 e hgen]
    exact ⟨_, rfl, discipline_of_quiet w tr0 _ rfl, fun h => absurd rfl h⟩
  | returned pair =>
    rw [createAccount_returned w tr0 pair hgen]
    simp only [bind_run]
    obtain ⟨balance, events, hcheck, hevents⟩ : ∃ balance events,
        checkBalance w ⟨"7GnVC9WogD4DKRhFn9QXMiGJtPSP9Skz7reTpfgqXrL8"⟩
          (tr0 ++ [.log [.str "Generating new account..."], .generate,
            .log [.str "Public key: ", .str pair.publicKey.toString]]) =
          ⟨.returned balance, tr0 ++ events⟩ ∧ steps events = [] := by
      cases hbal : w.getBalance (balanceCalls (tr0 ++ [.log [.str "Generating new account..."],
          .generate, .log [.str "Public key: ", .str pair.publicKey.toString]]))
          ⟨"7GnVC9WogD4DKRhFn9QXMiGJtPSP9Skz7reTpfgqXrL8"⟩ with
      | returned b =>
        rw [checkBalance_returned w _ _ b hbal]
        exact ⟨_, _, by rw [List.append_assoc], by rfl⟩
      | threw e =>
        rw [checkBalance_threw w _ _ e hbal]
        exact ⟨_, _, by rw [List.append_assoc], by rfl⟩
    rw [hcheck]
    simp only []
    obtain ⟨out, added, hdrop, hadded, _⟩ := airdrop_quiet w pair.publicKey
      (LAMPORTS_PER_SOL / 1000000 * 5 * 10) (tr0 ++ events)
    rw [hdrop]
    have hquiet : steps (events ++ added) = [] := by rw [steps_append, hevents, hadded]; rfl
    cases out with
    | threw e =>
      exact ⟨events ++ added, by simp, discipline_of_quiet w tr0 _ hquiet,
        fun h => absurd hquiet h⟩
    | returned t =>
      simp only []
      obtain ⟨new, hrun, hdiscipline⟩ := transferFrom_discipline w
        ⟨"7GnVC9WogD4DKRhFn9QXMiGJtPSP9Skz7reTpfgqXrL8"⟩ pair.publicKey balance tr0
        (events ++ added) hquiet
      rw [← List.append_assoc] at hrun
      rw [hrun]
      exact ⟨new, rfl, hdiscipline, fun _ => rfl⟩

/-- C6: in `task2` and in `task3`, whatever the collaborators answer, the events that the
task appends to the trace keep the discipline of a transfer (`TransferDiscipline`): the
steps build, credential, sign, send, confirm occur in this order, each at most once and none
without the ones before it; the credential is read only after the block reference was
supplied, signing happens only with a resolved key, `sendTransaction` is called only after
signing succeeded and `confirmTransaction` only after `sendTransaction` succeeded.  `task2`
always returns normally; `task3` returns normally as soon as it has performed a step of the
transfer, so a failure at sign, send or confirm is caught inside the task. -/
theorem transfer_steps_in_order (w : World) (tr0 : List Event) :
    (∃ new, task2 w tr0 = ⟨.returned (), tr0 ++ new⟩ ∧ TransferDiscipline w tr0 new) ∧
    (∃ new, (task3 w tr0).trace = tr0 ++ new ∧ TransferDiscipline w tr0 new ∧
      (steps new ≠ [] → (task3 w tr0).out = .returned ())) :=
  ⟨task2_discipline w tr0, task3_discipline w tr0⟩

/-- C6 at a concrete input: in the calm world both tasks perform the five steps in order. -/
theorem transfer_steps_in_order_witness :
    ((∃ new, task2 calmWorld [] = ⟨.returned (), [] ++ new⟩ ∧
        TransferDiscipline calmWorld [] new) ∧
      (∃ new, (task3 calmWorld []).trace = [] ++ new ∧ TransferDiscipline calmWorld [] new ∧
        (steps new ≠ [] → (task3 calmWorld []).out = .returned ()))) ∧
    steps (task2 calmWorld []).trace = [.build, .credential, .sign, .send, .confirm] ∧
    steps (task3 calmWorld []).trace = [.build, .credential, .sign, .send, .confirm] :=
  ⟨transfer_steps_in_order calmWorld [], rfl, rfl⟩

/-- The run of `getSecretKey` when the environment holds a key that decodes. -/
theorem getSecretKey_resolved (w : World) (encoded : String) (bytes : List Nat)
    (key : Keypair) (henv : w.secretKeyEnv = some encoded) (hne : encoded ≠ "")
    (hdecode : w.base58decode encoded = .returned bytes)
    (hkey : w.fromSecretKey bytes = .returned key) (tr : List Event) :
    getSecretKey w tr = ⟨.returned (some key), tr ++ [.getEnv "SOLANA_SECRET_KEY"]⟩ := by
  simp [getSecretKey, henv, hne, hdecode, hkey]

/-- C7: in `task2`, when the block reference `h` is supplied, the credential decodes to
`key`, signing succeeds, `sendTransaction` answers the signature `s` and
`confirmTransaction` succeeds, then the amount of line 96 is 5000, the task makes exactly
one `sendTransaction` call, its transaction holds the single transfer of 5000 from the fixed
sender to the fixed receiver, and the task ends by logging the confirmation and the explorer
URL `https://explorer.solana.com/tx/` ++ `s` ++ `?cluster=devnet`. -/
theorem task2_confirmed_transfer (w : World) (tr0 : List Event) (h encoded : String)
    (bytes : List Nat) (key : Keypair) (sig s : String) (c : Confirmation)
    (hblock : w.getRecentBlockhash (blockhashCalls tr0) = .returned h)
    (henv : w.secretKeyEnv = some encoded) (hne : encoded ≠ "")
    (hdecode : w.base58decode encoded = .returned bytes)
    (hkey : w.fromSecretKey bytes = .returned key)
    (hsign : w.sign
      { instructions :=
          [{ fromPubkey := ⟨"7GnVC9WogD4DKRhFn9QXMiGJtPSP9Skz7reTpfgqXrL8"⟩,
             toPubkey := ⟨"63EEC9FfGyksm7PkVC6z8uAmqozbQcTzbkWJNsgqjkFs"⟩,
             lamports := 5000 }],
        recentBlockhash := some h,
        signatures := [] } key = .returned sig)
    (hsend : w.sendTransaction (sendCalls tr0)
      { instructions :=
          [{ fromPubkey := ⟨"7GnVC9WogD4DKRhFn9QXMiGJtPSP9Skz7reTpfgqXrL8"⟩,
             toPubkey := ⟨"63EEC9FfGyksm7PkVC6z8uAmqozbQcTzbkWJNsgqjkFs"⟩,
             lamports := 5000 }],
        recentBlockhash := some h,
        signatures := [(key.publicKey, sig)] } [key] = .returned s)
    (hconfirm : w.confirmTransaction (confirmCalls tr0) s = .returned c) :
    LAMPORTS_PER_SOL / 1000000 * 5 = 5000 ∧
    ∃ before,
      task2 w tr0 =
        ⟨.returned (),
          before ++
            [.sign
              { instructions :=
                  [{ fromPubkey := ⟨"7GnVC9WogD4DKRhFn9QXMiGJtPSP9Skz7reTpfgqXrL8"⟩,
                     toPubkey := ⟨"63EEC9FfGyksm7PkVC6z8uAmqozbQcTzbkWJNsgqjkFs"⟩,
                     lamports := 5000 }],
                recentBlockhash := some h,
                signatures := [] } key,
             .sendTransaction
              { instructions :=
                  [{ fromPubkey := ⟨"7GnVC9WogD4DKRhFn9QXMiGJtPSP9Skz7reTpfgqXrL8"⟩,
                     toPubkey := ⟨"63EEC9FfGyksm7PkVC6z8uAmqozbQcTzbkWJNsgqjkFs"⟩,
                     lamports := 5000 }],
                recentBlockhash := some h,
                signatures := [(key.publicKey, sig)] } [key],
             .log [.str "Transaction signature: ", .str s],
             .confirmTransaction s,
             .log [.str "Transaction confirmed: ", .conf c],
             .log [.str "View transaction on Solana Explorer: ",
               .str ("https://explorer.solana.com/tx/" ++ s ++ "?cluster=devnet")]]⟩ ∧
      tr0 <+: before ∧ sendCalls before = sendCalls tr0 := by
  refine ⟨rfl, ?_⟩
  have hamount : LAMPORTS_PER_SOL / 1000000 * 5 = 5000 := rfl
  have hrest : ∀ pre : List Event, steps pre = [] →
      ∃ before,
        submitTransfer w ⟨"7GnVC9WogD4DKRhFn9QXMiGJtPSP9Skz7reTpfgqXrL8"⟩
            ⟨"63EEC9FfGyksm7PkVC6z8uAmqozbQcTzbkWJNsgqjkFs"⟩ 5000 (tr0 ++ pre) =
          ⟨.returned (),
            before ++
              [.sign
                { instructions :=
                    [{ fromPubkey := ⟨"7GnVC9WogD4DKRhFn9QXMiGJtPSP9Skz7reTpfgqXrL8"⟩,
                       toPubkey := ⟨"63EEC9FfGyksm7PkVC6z8uAmqozbQcTzbkWJNsgqjkFs"⟩,
                       lamports := 5000 }],
                  recentBlockhash := some h,
                  signatures := [] } key,
               .sendTransaction
                { instructions :=
                    [{ fromPubkey := ⟨"7GnVC9WogD4DKRhFn9QXMiGJtPSP9Skz7reTpfgqXrL8"⟩,
                       toPubkey := ⟨"63EEC9FfGyksm7PkVC6z8uAmqozbQcTzbkWJNsgqjkFs"⟩,
                       lamports := 5000 }],
                  recentBlockhash := some h,
                  signatures := [(key.publicKey, sig)] } [key],
               .log [.str "Transaction signature: ", .str s],
               .confirmTransaction s,
               .log [.str "Transaction confirmed: ", .conf c],
               .log [.str "View transaction on Solana Explorer: ",
                 .str ("https://explorer.solana.com/tx/" ++ s ++ "?cluster=devnet")]]⟩ ∧
        tr0 <+: before ∧ sendCalls before = sendCalls tr0 := by
    intro pre hquiet
    have hcalls := calls_of_steps_nil pre hquiet
    have hsendIdx : sendCalls (tr0 ++ pre ++
        [.log [.str "Creating a transaction..."], .getRecentBlockhash] ++
          [.getEnv "SOLANA_SECRET_KEY"]) = sendCalls tr0 := by
      rw [sendCalls_append, sendCalls_append, sendCalls_append, hcalls.2.1]
      simp [sendCalls]
    have hconfirmIdx : confirmCalls (tr0 ++ pre ++
        [.log [.str "Creating a transaction..."], .getRecentBlockhash] ++
          [.getEnv "SOLANA_SECRET_KEY"]) = confirmCalls tr0 := by
      rw [confirmCalls_append, confirmCalls_append, confirmCalls_append, hcalls.2.2]
      simp [confirmCalls]
    unfold submitTransfer
    rw [bind_run, createTransaction_returned w _ _ _ (tr0 ++ pre) h
      (lamportsAccepted_of_lt w 5000 (by decide))
      (by rw [blockhashCalls_append, hcalls.1]; exact hblock)]
    simp only [bind_run, getSecretKey_resolved w encoded bytes key henv hne hdecode hkey]
    rw [signAndSubmit_confirmed w _ key _ sig s c hsign (by rw [hsendIdx]; exact hsend)
      (by rw [hconfirmIdx]; exact hconfirm)]
    exact ⟨_, rfl, by simp [List.append_assoc], hsendIdx⟩
  rw [task2_eq, bind_run]
  cases hbal : w.getBalance (balanceCalls tr0) ⟨"7GnVC9WogD4DKRhFn9QXMiGJtPSP9Skz7reTpfgqXrL8"⟩ with
  | returned b =>
    rw [checkBalance_returned w _ tr0 b hbal]
    simp only []
    unfold transferFrom
    rw [hamount]
    by_cases hlt : jsLt (some b) 5000 = true
    · have hrun := hrest [.getBalance ⟨"7GnVC9WogD4DKRhFn9QXMiGJtPSP9Skz7reTpfgqXrL8"⟩,
        .log [.str "SOL Balance: ", .num b, .str " Lamports"],
        .log [.str "Your balance is too low."],
        .log [.str "Processing without sufficient balance..."]] rfl
      simpa [hlt] using hrun
    · have hrun := hrest [.getBalance ⟨"7GnVC9WogD4DKRhFn9QXMiGJtPSP9Skz7reTpfgqXrL8"⟩,
        .log [.str "SOL Balance: ", .num b, .str " Lamports"]] rfl
      simpa [hlt] using hrun
  | threw e =>
    rw [checkBalance_threw w _ tr0 e hbal]
    simp only []
    unfold transferFrom
    rw [hamount]
    have hrun := hrest [.getBalance ⟨"7GnVC9WogD4DKRhFn9QXMiGJtPSP9Skz7reTpfgqXrL8"⟩,
      .error [.str "Error fetching balance for ",
        .str (PublicKey.toString ⟨"7GnVC9WogD4DKRhFn9QXMiGJtPSP9Skz7reTpfgqXrL8"⟩),
        .str ": ", .err e]] rfl
    simpa [jsLt] using hrun

/-- C7 at a concrete input: the calm world, from the empty trace. -/
theorem task2_confirmed_transfer_witness :
    LAMPORTS_PER_SOL / 1000000 * 5 = 5000 ∧
    ∃ before,
      task2 calmWorld [] =
        ⟨.returned (),
          before ++
            [.sign
              { instructions :=
                  [{ fromPubkey := ⟨"7GnVC9WogD4DKRhFn9QXMiGJtPSP9Skz7reTpfgqXrL8"⟩,
                     toPubkey := ⟨"63EEC9FfGyksm7PkVC6z8uAmqozbQcTzbkWJNsgqjkFs"⟩,
                     lamports := 5000 }],
                recentBlockhash := some "blockhash1",
                signatures := [] }
              ⟨⟨"7GnVC9WogD4DKRhFn9QXMiGJtPSP9Skz7reTpfgqXrL8"⟩, [1, 2, 3]⟩,
             .sendTransaction
              { instructions :=
                  [{ fromPubkey := ⟨"7GnVC9WogD4DKRhFn9QXMiGJtPSP9Skz7reTpfgqXrL8"⟩,
                     toPubkey := ⟨"63EEC9FfGyksm7PkVC6z8uAmqozbQcTzbkWJNsgqjkFs"⟩,
                     lamports := 5000 }],
                recentBlockhash := some "blockhash1",
                signatures :=
                  [((⟨⟨"7GnVC9WogD4DKRhFn9QXMiGJtPSP9Skz7reTpfgqXrL8"⟩, [1, 2, 3]⟩ :
                    Keypair).publicKey, "sig")] }
              [⟨⟨"7GnVC9WogD4DKRhFn9QXMiGJtPSP9Skz7reTpfgqXrL8"⟩, [1, 2, 3]⟩],
             .log [.str "Transaction signature: ", .str "txSignature"],
             .confirmTransaction "txSignature",
             .log [.str "Transaction confirmed: ", .conf ⟨none⟩],
             .log [.str "View transaction on Solana Explorer: ",
               .str ("https://explorer.solana.com/tx/" ++ "txSignature" ++
                 "?cluster=devnet")]]⟩ ∧
      [] <+: before ∧ sendCalls before = sendCalls [] :=
  task2_confirmed_transfer calmWorld [] "blockhash1" "encodedSecret" [1, 2, 3]
    ⟨⟨"7GnVC9WogD4DKRhFn9QXMiGJtPSP9Skz7reTpfgqXrL8"⟩, [1, 2, 3]⟩ "sig" "txSignature" ⟨none⟩
    rfl rfl (by decide) rfl rfl rfl rfl rfl

theorem balanceCalls_append (tr new : List Event) :
    balanceCalls (tr ++ new) = balanceCalls tr + balanceCalls new := by
  simp [balanceCalls]

/-- C10, evaluated: the insufficiency check of the first transfer of `task4` (line 184)
reads `solBalance`, a name that `task4` does not bind.  In the calm world the task throws
the `ReferenceError` for that name after a single balance query and before any step of a
transfer; and in every world `task4` throws before any step of either transfer, having
queried the balance at most once, so the second transfer never recomputes the balance. -/
theorem task4_check_reads_unbound_name :
    ((task4 calmWorld []).out =
        .threw ⟨"ReferenceError", "solBalance is not defined", none⟩ ∧
      balanceCalls (task4 calmWorld []).trace = 1 ∧
      steps (task4 calmWorld []).trace = []) ∧
    (∀ (w : World) (tr0 : List Event), ∃ e new,
      task4 w tr0 = ⟨.threw e, tr0 ++ new⟩ ∧ steps new = [] ∧ balanceCalls new ≤ 1) := by
  refine ⟨⟨rfl, rfl, rfl⟩, ?_⟩
  intro w tr0
  unfold task4
  rw [bind_run]
  cases hgen : w.generate (generateCalls tr0) with
  | threw e =>
    rw [createAccount_threw w tr0 e hgen]
    exact ⟨e, _, rfl, rfl, by decide⟩
  | returned pair =>
    rw [createAccount_returned w tr0 pair hgen]
    simp only [bind_run]
    obtain ⟨balance, events, hcheck, hevents, hcount⟩ : ∃ balance events,
        checkBalance w ⟨"7GnVC9WogD4DKRhFn9QXMiGJtPSP9Skz7reTpfgqXrL8"⟩
          (tr0 ++ [.log [.str "Generating new account..."], .generate,
            .log [.str "Public key: ", .str pair.publicKey.toString]]) =
          ⟨.returned balance, tr0 ++ events⟩ ∧ steps events = [] ∧
          balanceCalls events = 1 := by
      cases hbal : w.getBalance (balanceCalls (tr0 ++ [.log [.str "Generating new account..."],
          .generate, .log [.str "Public key: ", .str pair.publicKey.toString]]))
          ⟨"7GnVC9WogD4DKRhFn9QXMiGJtPSP9Skz7reTpfgqXrL8"⟩ with
      | returned b =>
        rw [checkBalance_returned w _ _ b hbal]
        exact ⟨_, _, by rw [List.append_assoc], by rfl, by rfl⟩
      | threw e =>
        rw [checkBalance_threw w _ _ e hbal]
        exact ⟨_, _, by rw [List.append_assoc], by rfl, by rfl⟩
    rw [hcheck]
    simp only []
    obtain ⟨out, added, hdrop, hadded, hnone⟩ := airdrop_quiet w pair.publicKey
      (LAMPORTS_PER_SOL / 1000000 * 5 * 10) (tr0 ++ events)
    rw [hdrop]
    have hquiet : steps (events ++ added) = [] := by rw [steps_append, hevents, hadded]; rfl
    have hone : balanceCalls (events ++ added) ≤ 1 := by
      rw [balanceCalls_append, hcount, hnone]
    cases out with
    | threw e => exact ⟨e, events ++ added, by simp, hquiet, hone⟩
    | returned t =>
      exact ⟨⟨"ReferenceError", "solBalance is not defined", none⟩, events ++ added,
        by simp [unbound], hquiet, hone⟩

end Executor
